import Mathlib

/-!
Shallow embedding of the transfer execution engine of the mock-banking-app
repository.

The embedding translates `src/server/services/transferService.js`
(`transferFunds`), the error class `src/server/errors/transferSystemError.js`,
the global error middleware (`errorHandler`) and the relevant parts of the
database schema (`src/server/db/migrations/*`: the transactions table with its
unique partial index `uq_transfer_idempotency_per_user`, the accounts,
ledger_entries and audit_logs tables).

Modelling conventions:
  * The database is an explicit state (`DBState`) holding the four tables as
    lists of rows plus a fresh-id counter standing for the uuid generator.
    Ids (uuids) are modelled as `Nat`, money (BIGINT minor units) as `Int`.
  * knex queries become list operations: `.first()` is `List.find?`,
    a conditional `UPDATE ... WHERE` returning a rowcount becomes
    `List.countP` of the predicate together with a `List.map` that applies
    the SET clause to the matching rows, and `INSERT` appends.
  * The knex transaction wrapper: the body is `Except String (value × state)`;
    a thrown error rolls the state back to the state at `knex.transaction`
    entry, and the service's catch block rethrows it as a plain JS `Error`
    with message `TRANSFER_SYSTEM_FAILURE: <inner message>`.
  * The JS falsy check `!idempotencyKey` is modelled as equality with `""`
    (the absent/null/empty key cases are collapsed into the empty string).
  * The unique partial index of the migration
    (`(initiator_user_id, idempotency_key, type) WHERE type = 'TRANSFER' AND
    idempotency_key IS NOT NULL`) is modelled inside the insert of the
    PENDING row: the insert fails (throws, like postgres raising a duplicate
    key error) when a conflicting row is present. Foreign-key constraints
    are not modelled. `NULL` keys are modelled by `""`.
  * `response_payload` is a JSONB column; both the object stored on the
    eligibility-rejection/success paths and the `JSON.stringify`d string
    stored on the INSUFFICIENT_FUNDS path land in the column as the same
    JSONB object, so both are modelled as storing the payload value.
-/

namespace MockBanking

/-- accounts.status CHECK ('ACTIVE','FROZEN','TERMINATED'). -/
inductive AccountStatus
  | ACTIVE
  | FROZEN
  | TERMINATED
deriving DecidableEq, Repr

/-- A row of the accounts table (fields the transfer engine reads/writes). -/
structure Account where
  account_id : Nat
  status : AccountStatus
  current_balance : Int
deriving DecidableEq, Repr

/-- transactions.status CHECK ('PENDING','SUCCEEDED','REJECTED','FAILED'). -/
inductive TxStatus
  | PENDING
  | SUCCEEDED
  | REJECTED
  | FAILED
deriving DecidableEq, Repr

/-- The domain result objects `transferFunds` returns and stores.
`inputFault` is the pre-transaction `{success:false, error, message}` shape,
`rejected` the `{success:false, transactionId, status:'REJECTED', reason}`
shape, `succeeded` the
`{success:true, transactionId, status:'SUCCEEDED', fromAccountId, toAccountId,
amount}` shape. -/
inductive Payload
  | inputFault (error : String) (message : String)
  | rejected (transactionId : Nat) (reason : String)
  | succeeded (transactionId fromAccountId toAccountId : Nat) (amount : Int)
deriving DecidableEq, Repr

/-- A row of the transactions table (fields the transfer engine uses). -/
structure TransactionRow where
  transaction_id : Nat
  status : TxStatus
  type : String
  initiator_user_id : Nat
  from_account_id : Nat
  to_account_id : Nat
  amount : Int
  idempotency_key : String
  response_payload : Option Payload
  failure_reason : Option String
deriving DecidableEq, Repr

/-- A row of the ledger_entries table. -/
structure LedgerEntry where
  account_id : Nat
  transaction_id : Nat
  amount : Int
deriving DecidableEq, Repr

/-- A row of the audit_logs table. -/
structure AuditRow where
  actor_type : String
  actor_id : Nat
  action : String
  target_type : String
  target_id : Nat
  outcome : String
  reason : Option String
deriving DecidableEq, Repr

/-- The database state: the four tables plus the id generator for new
transaction rows. -/
structure DBState where
  accounts : List Account
  transactions : List TransactionRow
  ledger_entries : List LedgerEntry
  audit_logs : List AuditRow
  nextTxId : Nat
deriving DecidableEq, Repr

/-- A JS error value: either a plain `Error` (as `new Error(message)` in the
service's catch block produces) or an instance of the `TransferSystemError`
class of src/server/errors/transferSystemError.js. -/
inductive JsError
  | plainError (message : String)
  | transferSystemError (message : String)
deriving DecidableEq, Repr

/-- What a call to `transferFunds` does towards its caller: return a value
(`none` models returning a null/undefined `response_payload`) or throw. -/
inductive TransferOutput
  | ok (value : Option Payload)
  | fault (err : JsError)
deriving DecidableEq, Repr

/-- The argument object of `transferFunds`. -/
structure TransferInput where
  initiatorUserId : Nat
  fromAccountId : Nat
  toAccountId : Nat
  amount : Int
  idempotencyKey : String
deriving DecidableEq, Repr

/-! ### Table operations (knex queries of the service, schema of the
migrations) -/

/-- `trx('accounts').where({account_id}).first()`. -/
def findAccount (s : DBState) (accountId : Nat) : Option Account :=
  s.accounts.find? (fun a => decide (a.account_id = accountId))

/-- The where-clause of the STEP 2 idempotency lookup:
`{initiator_user_id, idempotency_key, type: 'TRANSFER'}`. -/
def txKeyMatches (initiatorUserId : Nat) (idempotencyKey : String)
    (t : TransactionRow) : Bool :=
  decide (t.initiator_user_id = initiatorUserId ∧
    t.idempotency_key = idempotencyKey ∧ t.type = "TRANSFER")

/-- STEP 2: `trx('transactions').where({...}).first()`. -/
def findTransaction (s : DBState) (initiatorUserId : Nat)
    (idempotencyKey : String) : Option TransactionRow :=
  s.transactions.find? (txKeyMatches initiatorUserId idempotencyKey)

/-- The row STEP 3 inserts (status PENDING, type TRANSFER, the five inputs). -/
def pendingTransferRow (input : TransferInput) (transactionId : Nat) :
    TransactionRow :=
  { transaction_id := transactionId
    status := TxStatus.PENDING
    type := "TRANSFER"
    initiator_user_id := input.initiatorUserId
    from_account_id := input.fromAccountId
    to_account_id := input.toAccountId
    amount := input.amount
    idempotency_key := input.idempotencyKey
    response_payload := none
    failure_reason := none }

/-- A row of the transactions table conflicts with the insert of a new
TRANSFER row under the unique partial index `uq_transfer_idempotency_per_user`
of the migration (`(initiator_user_id, idempotency_key, type)` WHERE
`type = 'TRANSFER' AND idempotency_key IS NOT NULL`). -/
def uniqueIndexConflict (input : TransferInput) (t : TransactionRow) : Bool :=
  decide (input.idempotencyKey ≠ "" ∧
    t.initiator_user_id = input.initiatorUserId ∧
    t.idempotency_key = input.idempotencyKey ∧ t.type = "TRANSFER")

/-- The message of the error postgres raises when the unique partial index
rejects the insert. -/
def uniqueViolationMessage : String :=
  "duplicate key value violates unique constraint uq_transfer_idempotency_per_user"

/-- STEP 3: insert the PENDING transactions row. The database raises a
duplicate-key error when the unique partial index is violated; otherwise the
row is appended with the fresh id and the id is returned (`returning('*')`). -/
def insertPendingTransaction (input : TransferInput) (s : DBState) :
    Except String (Nat × DBState) :=
  if s.transactions.any (uniqueIndexConflict input) then
    Except.error uniqueViolationMessage
  else
    Except.ok (s.nextTxId,
      { s with
        transactions := s.transactions ++ [pendingTransferRow input s.nextTxId]
        nextTxId := s.nextTxId + 1 })

/-- `trx('audit_logs').insert(row)`. -/
def insertAudit (s : DBState) (row : AuditRow) : DBState :=
  { s with audit_logs := s.audit_logs ++ [row] }

/-- The STEP 4 audit row
`{actor_type:'USER', actor_id, action:'TRANSFER', target_type:'TRANSACTION',
target_id, outcome:'ATTEMPTED'}`. -/
def attemptedAudit (input : TransferInput) (transactionId : Nat) : AuditRow :=
  { actor_type := "USER", actor_id := input.initiatorUserId
    action := "TRANSFER", target_type := "TRANSACTION"
    target_id := transactionId, outcome := "ATTEMPTED", reason := none }

/-- The audit row of the two rejection paths (`outcome:'REJECTED', reason`). -/
def rejectedAudit (input : TransferInput) (transactionId : Nat)
    (reason : String) : AuditRow :=
  { actor_type := "USER", actor_id := input.initiatorUserId
    action := "TRANSFER", target_type := "TRANSACTION"
    target_id := transactionId, outcome := "REJECTED", reason := some reason }

/-- The STEP 9 audit row (`outcome:'SUCCEEDED'`). -/
def succeededAudit (input : TransferInput) (transactionId : Nat) : AuditRow :=
  { actor_type := "USER", actor_id := input.initiatorUserId
    action := "TRANSFER", target_type := "TRANSACTION"
    target_id := transactionId, outcome := "SUCCEEDED", reason := none }

/-- The SET clause of the rejection-path update, applied to the rows the
WHERE clause (`transaction_id = transactionId`) selects. -/
def rejectApply (transactionId : Nat) (reason : String) (payload : Payload)
    (t : TransactionRow) : TransactionRow :=
  if t.transaction_id = transactionId then
    { t with
      status := TxStatus.REJECTED
      failure_reason := some reason
      response_payload := some payload }
  else t

/-- `trx('transactions').where({transaction_id}).update({status:'REJECTED',
failure_reason, response_payload})`. -/
def markRejected (s : DBState) (transactionId : Nat) (reason : String)
    (payload : Payload) : DBState :=
  { s with
    transactions := s.transactions.map (rejectApply transactionId reason payload) }

/-- The SET clause of the STEP 8 update, applied to the rows the WHERE
clause (`transaction_id = transactionId`) selects. -/
def succeedApply (transactionId : Nat) (payload : Payload)
    (t : TransactionRow) : TransactionRow :=
  if t.transaction_id = transactionId then
    { t with
      status := TxStatus.SUCCEEDED
      response_payload := some payload }
  else t

/-- `trx('transactions').where({transaction_id}).update({status:'SUCCEEDED',
response_payload})`. -/
def markSucceeded (s : DBState) (transactionId : Nat) (payload : Payload) :
    DBState :=
  { s with
    transactions := s.transactions.map (succeedApply transactionId payload) }

/-- The WHERE clause of the STEP 6 debit:
`account_id = fromAccountId AND status = 'ACTIVE' AND
current_balance >= amount`. -/
def debitMatches (fromAccountId : Nat) (amount : Int) (a : Account) : Bool :=
  decide (a.account_id = fromAccountId ∧ a.status = AccountStatus.ACTIVE ∧
    amount ≤ a.current_balance)

/-- The SET clause of the debit, applied to the rows its WHERE clause
selects. -/
def debitApply (fromAccountId : Nat) (amount : Int) (a : Account) : Account :=
  if debitMatches fromAccountId amount a then
    { a with current_balance := a.current_balance - amount }
  else a

/-- STEP 6 debit: the conditional `UPDATE ... SET current_balance =
current_balance - amount` returning the number of affected rows. -/
def debitUpdate (s : DBState) (fromAccountId : Nat) (amount : Int) :
    Nat × DBState :=
  (s.accounts.countP (debitMatches fromAccountId amount),
   { s with accounts := s.accounts.map (debitApply fromAccountId amount) })

/-- The WHERE clause of the STEP 6 credit:
`account_id = toAccountId AND status = 'ACTIVE'`. -/
def creditMatches (toAccountId : Nat) (a : Account) : Bool :=
  decide (a.account_id = toAccountId ∧ a.status = AccountStatus.ACTIVE)

/-- The SET clause of the credit, applied to the rows its WHERE clause
selects. -/
def creditApply (toAccountId : Nat) (amount : Int) (a : Account) : Account :=
  if creditMatches toAccountId a then
    { a with current_balance := a.current_balance + amount }
  else a

/-- STEP 6 credit: the conditional `UPDATE ... SET current_balance =
current_balance + amount` returning the number of affected rows. -/
def creditUpdate (s : DBState) (toAccountId : Nat) (amount : Int) :
    Nat × DBState :=
  (s.accounts.countP (creditMatches toAccountId),
   { s with accounts := s.accounts.map (creditApply toAccountId amount) })

/-- `trx('ledger_entries').insert([...])`. -/
def insertLedgerEntries (s : DBState) (rows : List LedgerEntry) : DBState :=
  { s with ledger_entries := s.ledger_entries ++ rows }

/-- The STEP 5 rejection-reason cascade, first match wins:
`!fromAccount` → FROM_ACCOUNT_NOT_FOUND, `fromAccount.status !== 'ACTIVE'` →
FROM_ACCOUNT_NOT_ACTIVE, `!toAccount` → TO_ACCOUNT_NOT_FOUND,
`toAccount.status !== 'ACTIVE'` → TO_ACCOUNT_NOT_ACTIVE. -/
def rejectionReasonOf (fromAccount toAccount : Option Account) :
    Option String :=
  match fromAccount with
  | none => some "FROM_ACCOUNT_NOT_FOUND"
  | some fa =>
    if fa.status ≠ AccountStatus.ACTIVE then some "FROM_ACCOUNT_NOT_ACTIVE"
    else
      match toAccount with
      | none => some "TO_ACCOUNT_NOT_FOUND"
      | some ta =>
        if ta.status ≠ AccountStatus.ACTIVE then some "TO_ACCOUNT_NOT_ACTIVE"
        else none

/-! ### The transfer executor (transferService.js lines 74-357, factored
along the code's steps; the factoring is definitional, `transferBody` chains
the phases exactly as the source chains the steps) -/

/-- Lines 265-357 of transferService.js: the credit update onward, on the
state as of the credit UPDATE. If the credit affects 0 rows the service
throws `Error('CREDIT_FAILED_ROLLBACK')` (modelled as `Except.error`);
otherwise it writes the two ledger entries, marks the transaction SUCCEEDED
storing the success payload, appends the SUCCEEDED audit row and returns the
payload. -/
def creditOnwards (input : TransferInput) (transactionId : Nat)
    (s : DBState) : Except String (Option Payload × DBState) :=
  let credit := creditUpdate s input.toAccountId input.amount
  if credit.1 = 0 then
    Except.error "CREDIT_FAILED_ROLLBACK"
  else
    let s1 := insertLedgerEntries credit.2
      [{ account_id := input.fromAccountId, transaction_id := transactionId
         amount := -input.amount },
       { account_id := input.toAccountId, transaction_id := transactionId
         amount := input.amount }]
    let successPayload := Payload.succeeded transactionId input.fromAccountId
      input.toAccountId input.amount
    let s2 := markSucceeded s1 transactionId successPayload
    let s3 := insertAudit s2 (succeededAudit input transactionId)
    Except.ok (some successPayload, s3)

/-- Lines 110-357 of transferService.js: everything after the idempotency
lookup came back empty — insert the PENDING row (the unique partial index may
raise), audit ATTEMPTED, eligibility checks with the two rejection paths,
conditional debit, then `creditOnwards`. -/
def admitOnwards (input : TransferInput) (s : DBState) :
    Except String (Option Payload × DBState) :=
  match insertPendingTransaction input s with
  | Except.error e => Except.error e
  | Except.ok (transactionId, s1) =>
    let s2 := insertAudit s1 (attemptedAudit input transactionId)
    let fromAccount := findAccount s2 input.fromAccountId
    let toAccount := findAccount s2 input.toAccountId
    match rejectionReasonOf fromAccount toAccount with
    | some rejectionReason =>
      let rejectionPayload := Payload.rejected transactionId rejectionReason
      let s3 := markRejected s2 transactionId rejectionReason rejectionPayload
      let s4 := insertAudit s3 (rejectedAudit input transactionId rejectionReason)
      Except.ok (some rejectionPayload, s4)
    | none =>
      let debit := debitUpdate s2 input.fromAccountId input.amount
      if debit.1 = 0 then
        let rejectionPayload := Payload.rejected transactionId "INSUFFICIENT_FUNDS"
        let s3 := markRejected debit.2 transactionId "INSUFFICIENT_FUNDS"
          rejectionPayload
        let s4 := insertAudit s3 (rejectedAudit input transactionId
          "INSUFFICIENT_FUNDS")
        Except.ok (some rejectionPayload, s4)
      else
        creditOnwards input transactionId debit.2

/-- The body of the `knex.transaction` callback (lines 74-357): the STEP 2
idempotency lookup — on a hit the stored `response_payload` is returned as is,
whatever the row's status — otherwise `admitOnwards`. -/
def transferBody (input : TransferInput) (s : DBState) :
    Except String (Option Payload × DBState) :=
  match findTransaction s input.initiatorUserId input.idempotencyKey with
  | some existingTransaction => Except.ok (existingTransaction.response_payload, s)
  | none => admitOnwards input s

/-- The catch block (lines 359-372): rethrow as a plain JS `Error` whose
message is the `TRANSFER_SYSTEM_FAILURE: ` prefix plus the inner message. -/
def rethrowSystemFailure (innerMessage : String) : JsError :=
  JsError.plainError ("TRANSFER_SYSTEM_FAILURE: " ++ innerMessage)

/-- transferService.js `transferFunds`: the STEP 0 validations before any
database work, then the transaction body; a committed body returns its value
and state, a thrown body rolls the database back to the entry state and the
catch block rethrows the wrapped error. -/
def transferFunds (input : TransferInput) (s : DBState) :
    TransferOutput × DBState :=
  if input.amount ≤ 0 then
    (TransferOutput.ok (some (Payload.inputFault "INVALID_AMOUNT"
      "Amount must be greater than 0")), s)
  else if input.fromAccountId = input.toAccountId then
    (TransferOutput.ok (some (Payload.inputFault "SAME_ACCOUNT"
      "Cannot transfer to the same account")), s)
  else if input.idempotencyKey = "" then
    (TransferOutput.ok (some (Payload.inputFault "MISSING_IDEMPOTENCY_KEY"
      "Idempotency key is required for TRANSFER")), s)
  else
    match transferBody input s with
    | Except.ok (value, s1) => (TransferOutput.ok value, s1)
    | Except.error msg => (TransferOutput.fault (rethrowSystemFailure msg), s)

/-! ### The global error middleware (errorHandler) and the error class -/

/-- The JS `err instanceof TransferSystemError` test. -/
def instanceOfTransferSystemError : JsError → Bool
  | JsError.plainError _ => false
  | JsError.transferSystemError _ => true

/-- The HTTP response body the global error middleware sends. -/
structure HttpResponse where
  statusCode : Nat
  success : Bool
  error : String
deriving DecidableEq, Repr

/-- The global error middleware: a `TransferSystemError` instance gets
`500 TRANSFER_SYSTEM_FAILURE`, everything else falls through to
`500 INTERNAL_SERVER_ERROR` (the `headersSent` delegation branch is not
modelled — it performs no classification). -/
def errorHandler (err : JsError) : HttpResponse :=
  if instanceOfTransferSystemError err then
    { statusCode := 500, success := false, error := "TRANSFER_SYSTEM_FAILURE" }
  else
    { statusCode := 500, success := false, error := "INTERNAL_SERVER_ERROR" }

/-! ### Invariants of the committed state (spec section 8) and
well-formedness facts the database schema enforces -/

/-- Sum of the ledger entries posted against one account. -/
def ledgerSumFor (l : List LedgerEntry) (accountId : Nat) : Int :=
  ((l.filter (fun e => decide (e.account_id = accountId))).map
    (fun e => e.amount)).sum

/-- The ledger entries referencing one transaction. -/
def entriesFor (l : List LedgerEntry) (transactionId : Nat) :
    List LedgerEntry :=
  l.filter (fun e => decide (e.transaction_id = transactionId))

/-- Facts the schema and the id generator guarantee about any database state
the service operates on: primary-key uniqueness of account rows, freshness of
the transaction-id generator with respect to both tables that store
transaction ids, and the unique partial index on
`(initiator_user_id, idempotency_key, type='TRANSFER')`. -/
structure WF (s : DBState) : Prop where
  accounts_unique :
    s.accounts.Pairwise (fun a b => a.account_id ≠ b.account_id)
  tx_fresh : ∀ t ∈ s.transactions, t.transaction_id < s.nextTxId
  ledger_fresh : ∀ e ∈ s.ledger_entries, e.transaction_id < s.nextTxId
  key_unique :
    s.transactions.Pairwise (fun t u =>
      t.idempotency_key ≠ "" → t.type = "TRANSFER" → u.type = "TRANSFER" →
      t.initiator_user_id = u.initiator_user_id →
      t.idempotency_key ≠ u.idempotency_key)

/-- Invariant 1 of the spec: every account's `current_balance` equals the sum
of its ledger entries. -/
def BalanceLedgerEq (s : DBState) : Prop :=
  ∀ a ∈ s.accounts,
    a.current_balance = ledgerSumFor s.ledger_entries a.account_id

/-- Invariant 2 of the spec: every SUCCEEDED transfer has exactly the two
ledger entries `-amount` on the from-account and `+amount` on the to-account
(so their sum is zero), with a positive amount. -/
def ZeroSumSucceeded (s : DBState) : Prop :=
  ∀ t ∈ s.transactions, t.status = TxStatus.SUCCEEDED → t.type = "TRANSFER" →
    0 < t.amount ∧
    entriesFor s.ledger_entries t.transaction_id =
      [{ account_id := t.from_account_id, transaction_id := t.transaction_id
         amount := -t.amount },
       { account_id := t.to_account_id, transaction_id := t.transaction_id
         amount := t.amount }]

/-- Invariant 3 of the spec: no ledger entry references a REJECTED
transaction. -/
def NoTraceRejected (s : DBState) : Prop :=
  ∀ t ∈ s.transactions, t.status = TxStatus.REJECTED →
    entriesFor s.ledger_entries t.transaction_id = []

/-- A stored `response_payload` describes its own row: a stored rejection
payload carries the row's id and the row is REJECTED, a stored success
payload carries the row's id and the row is SUCCEEDED (which is how the
service writes them). -/
def PayloadConsistent (s : DBState) : Prop :=
  ∀ t ∈ s.transactions,
    (∀ txId r, t.response_payload = some (Payload.rejected txId r) →
      txId = t.transaction_id ∧ t.status = TxStatus.REJECTED) ∧
    (∀ txId f g a,
      t.response_payload = some (Payload.succeeded txId f g a) →
      txId = t.transaction_id ∧ t.status = TxStatus.SUCCEEDED)

/-- States reachable from `s` by committed `transferFunds` calls. -/
inductive Reachable : DBState → DBState → Prop
  | refl (s : DBState) : Reachable s s
  | step (s s' : DBState) (input : TransferInput) (h : Reachable s s') :
      Reachable s (transferFunds input s').2

/-- A payload describing a terminal domain outcome (SUCCEEDED or REJECTED),
as opposed to a pre-transaction input fault. -/
def isTerminalPayload : Payload → Bool
  | Payload.inputFault _ _ => false
  | Payload.rejected _ _ => true
  | Payload.succeeded _ _ _ _ => true

/-- The transactionId a stored/returned payload carries (0 for the input
faults, which carry none). -/
def payloadTransactionId : Payload → Nat
  | Payload.inputFault _ _ => 0
  | Payload.rejected n _ => n
  | Payload.succeeded n _ _ _ => n

/-! ### Projection lemmas for the table operations -/

theorem insertAudit_accounts (s : DBState) (r : AuditRow) :
    (insertAudit s r).accounts = s.accounts := rfl

theorem insertAudit_transactions (s : DBState) (r : AuditRow) :
    (insertAudit s r).transactions = s.transactions := rfl

theorem insertAudit_ledger (s : DBState) (r : AuditRow) :
    (insertAudit s r).ledger_entries = s.ledger_entries := rfl

theorem insertAudit_audits (s : DBState) (r : AuditRow) :
    (insertAudit s r).audit_logs = s.audit_logs ++ [r] := rfl

theorem insertAudit_nextTxId (s : DBState) (r : AuditRow) :
    (insertAudit s r).nextTxId = s.nextTxId := rfl

theorem markRejected_accounts (s : DBState) (n : Nat) (r : String)
    (p : Payload) : (markRejected s n r p).accounts = s.accounts := rfl

theorem markRejected_ledger (s : DBState) (n : Nat) (r : String)
    (p : Payload) :
    (markRejected s n r p).ledger_entries = s.ledger_entries := rfl

theorem markRejected_audits (s : DBState) (n : Nat) (r : String)
    (p : Payload) : (markRejected s n r p).audit_logs = s.audit_logs := rfl

theorem markRejected_nextTxId (s : DBState) (n : Nat) (r : String)
    (p : Payload) : (markRejected s n r p).nextTxId = s.nextTxId := rfl

theorem markSucceeded_accounts (s : DBState) (n : Nat) (p : Payload) :
    (markSucceeded s n p).accounts = s.accounts := rfl

theorem markSucceeded_ledger (s : DBState) (n : Nat) (p : Payload) :
    (markSucceeded s n p).ledger_entries = s.ledger_entries := rfl

theorem markSucceeded_audits (s : DBState) (n : Nat) (p : Payload) :
    (markSucceeded s n p).audit_logs = s.audit_logs := rfl

theorem markSucceeded_nextTxId (s : DBState) (n : Nat) (p : Payload) :
    (markSucceeded s n p).nextTxId = s.nextTxId := rfl

theorem insertLedgerEntries_accounts (s : DBState) (rows : List LedgerEntry) :
    (insertLedgerEntries s rows).accounts = s.accounts := rfl

theorem insertLedgerEntries_transactions (s : DBState)
    (rows : List LedgerEntry) :
    (insertLedgerEntries s rows).transactions = s.transactions := rfl

theorem insertLedgerEntries_ledger (s : DBState) (rows : List LedgerEntry) :
    (insertLedgerEntries s rows).ledger_entries =
      s.ledger_entries ++ rows := rfl

theorem insertLedgerEntries_audits (s : DBState) (rows : List LedgerEntry) :
    (insertLedgerEntries s rows).audit_logs = s.audit_logs := rfl

theorem insertLedgerEntries_nextTxId (s : DBState) (rows : List LedgerEntry) :
    (insertLedgerEntries s rows).nextTxId = s.nextTxId := rfl

theorem debitUpdate_transactions (s : DBState) (f : Nat) (amt : Int) :
    (debitUpdate s f amt).2.transactions = s.transactions := rfl

theorem debitUpdate_ledger (s : DBState) (f : Nat) (amt : Int) :
    (debitUpdate s f amt).2.ledger_entries = s.ledger_entries := rfl

theorem debitUpdate_audits (s : DBState) (f : Nat) (amt : Int) :
    (debitUpdate s f amt).2.audit_logs = s.audit_logs := rfl

theorem debitUpdate_nextTxId (s : DBState) (f : Nat) (amt : Int) :
    (debitUpdate s f amt).2.nextTxId = s.nextTxId := rfl

theorem creditUpdate_transactions (s : DBState) (t : Nat) (amt : Int) :
    (creditUpdate s t amt).2.transactions = s.transactions := rfl

theorem creditUpdate_ledger (s : DBState) (t : Nat) (amt : Int) :
    (creditUpdate s t amt).2.ledger_entries = s.ledger_entries := rfl

theorem creditUpdate_audits (s : DBState) (t : Nat) (amt : Int) :
    (creditUpdate s t amt).2.audit_logs = s.audit_logs := rfl

theorem creditUpdate_nextTxId (s : DBState) (t : Nat) (amt : Int) :
    (creditUpdate s t amt).2.nextTxId = s.nextTxId := rfl

/-! ### Small list helpers -/

theorem find?_append_none {α : Type} {l : List α} (l' : List α)
    {p : α → Bool} (h : l.find? p = none) :
    (l ++ l').find? p = l'.find? p := by
  induction l with
  | nil => rfl
  | cons a t ih =>
    by_cases hpa : p a
    · rw [List.find?_cons_of_pos _ hpa] at h
      exact absurd h (by simp)
    · have hpa' : p a = false := by simpa using hpa
      rw [List.find?_cons_of_neg _ (by simp [hpa'])] at h
      rw [List.cons_append, List.find?_cons_of_neg _ (by simp [hpa'])]
      exact ih h

theorem map_ite_id {α : Type} {l : List α} {p : α → Prop} [DecidablePred p]
    {g : α → α} (h : ∀ a ∈ l, ¬ p a) :
    (l.map fun a => if p a then g a else a) = l := by
  induction l with
  | nil => rfl
  | cons a t ih =>
    rw [List.map_cons, if_neg (h a (List.mem_cons_self a t)),
      ih fun x hx => h x (List.mem_cons_of_mem a hx)]

theorem mem_eq_of_pairwise_ids {l : List Account} {a b : Account}
    (hp : l.Pairwise (fun x y => x.account_id ≠ y.account_id))
    (ha : a ∈ l) (hb : b ∈ l) (hid : a.account_id = b.account_id) : a = b := by
  by_contra hne
  exact hp.forall (fun x y hxy => (Ne.symm hxy)) ha hb hne hid

/-! ### Run lemmas: how `transferFunds` unfolds on each branch -/

theorem transferFunds_eq_body (input : TransferInput) (s : DBState)
    (h1 : 0 < input.amount) (h2 : input.fromAccountId ≠ input.toAccountId)
    (h3 : input.idempotencyKey ≠ "") :
    transferFunds input s =
      match transferBody input s with
      | Except.ok (value, s1) => (TransferOutput.ok value, s1)
      | Except.error msg =>
          (TransferOutput.fault (rethrowSystemFailure msg), s) := by
  unfold transferFunds
  rw [if_neg (not_le.mpr h1), if_neg h2, if_neg h3]

theorem transferBody_replay (input : TransferInput) (s : DBState)
    (t : TransactionRow)
    (hfind : findTransaction s input.initiatorUserId input.idempotencyKey =
      some t) :
    transferBody input s = Except.ok (t.response_payload, s) := by
  unfold transferBody
  rw [hfind]

theorem insertPending_of_lookup_none (input : TransferInput) (s : DBState)
    (hfind : findTransaction s input.initiatorUserId input.idempotencyKey =
      none) :
    insertPendingTransaction input s =
      Except.ok (s.nextTxId,
        { s with
          transactions :=
            s.transactions ++ [pendingTransferRow input s.nextTxId]
          nextTxId := s.nextTxId + 1 }) := by
  unfold insertPendingTransaction
  rw [if_neg]
  intro hany
  obtain ⟨t, ht, hc⟩ := List.any_eq_true.mp hany
  have hnm := List.find?_eq_none.mp hfind t ht
  simp only [uniqueIndexConflict, decide_eq_true_eq] at hc
  simp only [txKeyMatches, decide_eq_true_eq] at hnm
  exact hnm ⟨hc.2.1, hc.2.2.1, hc.2.2.2⟩

theorem debitApply_account_id (f : Nat) (amt : Int) (a : Account) :
    (debitApply f amt a).account_id = a.account_id := by
  unfold debitApply
  by_cases h : debitMatches f amt a <;> simp [h]

theorem debitApply_status (f : Nat) (amt : Int) (a : Account) :
    (debitApply f amt a).status = a.status := by
  unfold debitApply
  by_cases h : debitMatches f amt a <;> simp [h]

theorem creditApply_account_id (t : Nat) (amt : Int) (a : Account) :
    (creditApply t amt a).account_id = a.account_id := by
  unfold creditApply
  by_cases h : creditMatches t a <;> simp [h]

theorem creditApply_status (t : Nat) (amt : Int) (a : Account) :
    (creditApply t amt a).status = a.status := by
  unfold creditApply
  by_cases h : creditMatches t a <;> simp [h]

theorem creditMatches_debitApply (t f : Nat) (amt : Int) (a : Account) :
    creditMatches t (debitApply f amt a) = creditMatches t a := by
  unfold creditMatches
  rw [debitApply_account_id, debitApply_status]

theorem debitUpdate_accounts_zero (s : DBState) (f : Nat) (amt : Int)
    (h : s.accounts.countP (debitMatches f amt) = 0) :
    (debitUpdate s f amt).2.accounts = s.accounts := by
  have h' := List.countP_eq_zero.mp h
  show s.accounts.map (debitApply f amt) = s.accounts
  have : ∀ a ∈ s.accounts, debitApply f amt a = a := by
    intro a ha
    unfold debitApply
    rw [if_neg]
    simpa using h' a ha
  rw [List.map_congr_left this, List.map_id']

theorem creditCount_after_debit (s : DBState) (f t : Nat) (amt : Int) :
    (debitUpdate s f amt).2.accounts.countP (creditMatches t) =
      s.accounts.countP (creditMatches t) := by
  show (s.accounts.map (debitApply f amt)).countP (creditMatches t) = _
  rw [List.countP_map]
  congr 1
  funext a
  exact creditMatches_debitApply t f amt a

theorem transferBody_reject (input : TransferInput) (s : DBState) (r : String)
    (hfind : findTransaction s input.initiatorUserId input.idempotencyKey =
      none)
    (hrr : rejectionReasonOf (findAccount s input.fromAccountId)
      (findAccount s input.toAccountId) = some r) :
    transferBody input s =
      Except.ok (some (Payload.rejected s.nextTxId r),
        { accounts := s.accounts
          transactions :=
            (s.transactions ++ [pendingTransferRow input s.nextTxId]).map
              (rejectApply s.nextTxId r (Payload.rejected s.nextTxId r))
          ledger_entries := s.ledger_entries
          audit_logs := s.audit_logs ++
            [attemptedAudit input s.nextTxId,
             rejectedAudit input s.nextTxId r]
          nextTxId := s.nextTxId + 1 }) := by
  unfold transferBody
  rw [hfind]
  unfold admitOnwards
  rw [insertPending_of_lookup_none input s hfind]
  simp only [findAccount, insertAudit] at hrr ⊢
  rw [hrr]
  simp [markRejected, insertAudit, List.append_assoc]

theorem transferBody_insufficient (input : TransferInput) (s : DBState)
    (hfind : findTransaction s input.initiatorUserId input.idempotencyKey =
      none)
    (hrr : rejectionReasonOf (findAccount s input.fromAccountId)
      (findAccount s input.toAccountId) = none)
    (hdeb : s.accounts.countP
      (debitMatches input.fromAccountId input.amount) = 0) :
    transferBody input s =
      Except.ok (some (Payload.rejected s.nextTxId "INSUFFICIENT_FUNDS"),
        { accounts := s.accounts
          transactions :=
            (s.transactions ++ [pendingTransferRow input s.nextTxId]).map
              (rejectApply s.nextTxId "INSUFFICIENT_FUNDS"
                (Payload.rejected s.nextTxId "INSUFFICIENT_FUNDS"))
          ledger_entries := s.ledger_entries
          audit_logs := s.audit_logs ++
            [attemptedAudit input s.nextTxId,
             rejectedAudit input s.nextTxId "INSUFFICIENT_FUNDS"]
          nextTxId := s.nextTxId + 1 }) := by
  unfold transferBody
  rw [hfind]
  unfold admitOnwards
  rw [insertPending_of_lookup_none input s hfind]
  simp only [findAccount, insertAudit] at hrr ⊢
  rw [hrr]
  show (if (debitUpdate
      { accounts := s.accounts
        transactions := s.transactions ++ [pendingTransferRow input s.nextTxId]
        ledger_entries := s.ledger_entries
        audit_logs := s.audit_logs ++ [attemptedAudit input s.nextTxId]
        nextTxId := s.nextTxId + 1 }
      input.fromAccountId input.amount).1 = 0 then _ else _) = _
  simp only [debitUpdate]
  rw [if_pos hdeb]
  simp [markRejected, insertAudit, List.append_assoc, debitUpdate,
    List.map_map]
  exact debitUpdate_accounts_zero s input.fromAccountId input.amount hdeb

theorem countP_credit_map_debit (l : List Account) (f t : Nat) (amt : Int) :
    (l.map (debitApply f amt)).countP (creditMatches t) =
      l.countP (creditMatches t) := by
  rw [List.countP_map]
  congr 1
  funext a
  exact creditMatches_debitApply t f amt a

theorem transferBody_success (input : TransferInput) (s : DBState)
    (hfind : findTransaction s input.initiatorUserId input.idempotencyKey =
      none)
    (hrr : rejectionReasonOf (findAccount s input.fromAccountId)
      (findAccount s input.toAccountId) = none)
    (hdeb : s.accounts.countP
      (debitMatches input.fromAccountId input.amount) ≠ 0)
    (hcred : s.accounts.countP (creditMatches input.toAccountId) ≠ 0) :
    transferBody input s =
      Except.ok (some (Payload.succeeded s.nextTxId input.fromAccountId
          input.toAccountId input.amount),
        { accounts := (s.accounts.map (debitApply input.fromAccountId
            input.amount)).map (creditApply input.toAccountId input.amount)
          transactions :=
            (s.transactions ++ [pendingTransferRow input s.nextTxId]).map
              (succeedApply s.nextTxId (Payload.succeeded s.nextTxId
                input.fromAccountId input.toAccountId input.amount))
          ledger_entries := s.ledger_entries ++
            [{ account_id := input.fromAccountId, transaction_id := s.nextTxId
               amount := -input.amount },
             { account_id := input.toAccountId, transaction_id := s.nextTxId
               amount := input.amount }]
          audit_logs := s.audit_logs ++
            [attemptedAudit input s.nextTxId, succeededAudit input s.nextTxId]
          nextTxId := s.nextTxId + 1 }) := by
  unfold transferBody
  rw [hfind]
  unfold admitOnwards
  rw [insertPending_of_lookup_none input s hfind]
  simp only [findAccount, insertAudit] at hrr ⊢
  rw [hrr]
  show (if (debitUpdate
      { accounts := s.accounts
        transactions := s.transactions ++ [pendingTransferRow input s.nextTxId]
        ledger_entries := s.ledger_entries
        audit_logs := s.audit_logs ++ [attemptedAudit input s.nextTxId]
        nextTxId := s.nextTxId + 1 }
      input.fromAccountId input.amount).1 = 0 then _ else _) = _
  simp only [debitUpdate]
  rw [if_neg hdeb]
  simp only [creditOnwards, creditUpdate, countP_credit_map_debit]
  rw [if_neg hcred]
  simp [markSucceeded, insertAudit, insertLedgerEntries, List.append_assoc]

theorem creditOnwards_error (input : TransferInput) (transactionId : Nat)
    (s : DBState)
    (hcred : (creditUpdate s input.toAccountId input.amount).1 = 0) :
    creditOnwards input transactionId s =
      Except.error "CREDIT_FAILED_ROLLBACK" := by
  simp only [creditOnwards]
  rw [if_pos hcred]

theorem transferBody_creditfail (input : TransferInput) (s : DBState)
    (hfind : findTransaction s input.initiatorUserId input.idempotencyKey =
      none)
    (hrr : rejectionReasonOf (findAccount s input.fromAccountId)
      (findAccount s input.toAccountId) = none)
    (hdeb : s.accounts.countP
      (debitMatches input.fromAccountId input.amount) ≠ 0)
    (hcred : s.accounts.countP (creditMatches input.toAccountId) = 0) :
    transferBody input s = Except.error "CREDIT_FAILED_ROLLBACK" := by
  unfold transferBody
  rw [hfind]
  unfold admitOnwards
  rw [insertPending_of_lookup_none input s hfind]
  simp only [findAccount, insertAudit] at hrr ⊢
  rw [hrr]
  show (if (debitUpdate
      { accounts := s.accounts
        transactions := s.transactions ++ [pendingTransferRow input s.nextTxId]
        ledger_entries := s.ledger_entries
        audit_logs := s.audit_logs ++ [attemptedAudit input s.nextTxId]
        nextTxId := s.nextTxId + 1 }
      input.fromAccountId input.amount).1 = 0 then _ else _) = _
  simp only [debitUpdate]
  rw [if_neg hdeb]
  simp only [creditOnwards, creditUpdate, countP_credit_map_debit]
  rw [if_pos hcred]

theorem transferFunds_fault (input : TransferInput) (s : DBState) (m : String)
    (h1 : 0 < input.amount) (h2 : input.fromAccountId ≠ input.toAccountId)
    (h3 : input.idempotencyKey ≠ "")
    (hb : transferBody input s = Except.error m) :
    transferFunds input s =
      (TransferOutput.fault (rethrowSystemFailure m), s) := by
  rw [transferFunds_eq_body input s h1 h2 h3, hb]

/-! ### Freshness lemmas: updating the freshly inserted row leaves all
pre-existing rows untouched -/

theorem rejectApply_id (n : Nat) (r : String) (p : Payload)
    (t : TransactionRow) : (rejectApply n r p t).transaction_id =
      t.transaction_id := by
  unfold rejectApply
  by_cases h : t.transaction_id = n <;> simp [h]

theorem succeedApply_id (n : Nat) (p : Payload) (t : TransactionRow) :
    (succeedApply n p t).transaction_id = t.transaction_id := by
  unfold succeedApply
  by_cases h : t.transaction_id = n <;> simp [h]

theorem map_rejectApply_fresh {l : List TransactionRow} {n : Nat}
    (r : String) (p : Payload) (h : ∀ t ∈ l, t.transaction_id ≠ n) :
    l.map (rejectApply n r p) = l := by
  have : ∀ t ∈ l, rejectApply n r p t = t := by
    intro t ht
    unfold rejectApply
    rw [if_neg (h t ht)]
  rw [List.map_congr_left this, List.map_id']

theorem map_succeedApply_fresh {l : List TransactionRow} {n : Nat}
    (p : Payload) (h : ∀ t ∈ l, t.transaction_id ≠ n) :
    l.map (succeedApply n p) = l := by
  have : ∀ t ∈ l, succeedApply n p t = t := by
    intro t ht
    unfold succeedApply
    rw [if_neg (h t ht)]
  rw [List.map_congr_left this, List.map_id']

theorem rejectApply_pending (input : TransferInput) (n : Nat) (r : String)
    (p : Payload) :
    rejectApply n r p (pendingTransferRow input n) =
      { pendingTransferRow input n with
        status := TxStatus.REJECTED
        failure_reason := some r
        response_payload := some p } := by
  unfold rejectApply
  rw [if_pos (show (pendingTransferRow input n).transaction_id = n from rfl)]

theorem succeedApply_pending (input : TransferInput) (n : Nat)
    (p : Payload) :
    succeedApply n p (pendingTransferRow input n) =
      { pendingTransferRow input n with
        status := TxStatus.SUCCEEDED
        response_payload := some p } := by
  unfold succeedApply
  rw [if_pos (show (pendingTransferRow input n).transaction_id = n from rfl)]

/-! ### Ledger bookkeeping lemmas -/

theorem ledgerSumFor_append (l l' : List LedgerEntry) (i : Nat) :
    ledgerSumFor (l ++ l') i = ledgerSumFor l i + ledgerSumFor l' i := by
  unfold ledgerSumFor
  rw [List.filter_append, List.map_append, List.sum_append]

theorem entriesFor_append (l l' : List LedgerEntry) (n : Nat) :
    entriesFor (l ++ l') n = entriesFor l n ++ entriesFor l' n := by
  unfold entriesFor
  rw [List.filter_append]

theorem entriesFor_nil_of_fresh {l : List LedgerEntry} {n : Nat}
    (h : ∀ e ∈ l, e.transaction_id ≠ n) : entriesFor l n = [] := by
  unfold entriesFor
  rw [List.filter_eq_nil_iff]
  intro e he
  simpa using h e he

/-! ### Bounded multiplicity from the unique partial index -/

theorem countP_le_one_of_pairwise {α : Type} {l : List α} {p : α → Bool}
    (h : l.Pairwise (fun a b => ¬ (p a = true ∧ p b = true))) :
    l.countP p ≤ 1 := by
  induction l with
  | nil => simp [List.countP_nil]
  | cons a t ih =>
    rw [List.pairwise_cons] at h
    by_cases hpa : p a = true
    · have hzero : t.countP p = 0 := by
        rw [List.countP_eq_zero]
        intro b hb hpb
        exact h.1 b hb ⟨hpa, hpb⟩
      rw [List.countP_cons_of_pos _ _ hpa, hzero]
    · rw [List.countP_cons_of_neg _ _ (by simpa using hpa)]
      exact ih h.2

theorem count_key_le_one (s : DBState) (hW : WF s) (u : Nat) (k : String)
    (hk : k ≠ "") : s.transactions.countP (txKeyMatches u k) ≤ 1 := by
  apply countP_le_one_of_pairwise
  apply hW.key_unique.imp
  intro t t' hrel ⟨hpt, hpt'⟩
  simp only [txKeyMatches, decide_eq_true_eq] at hpt hpt'
  exact hrel (hpt.2.1 ▸ hk) hpt.2.2 hpt'.2.2
    (hpt.1.trans hpt'.1.symm) (hpt.2.1.trans hpt'.2.1.symm)

/-! ### Reading accounts through the balance updates -/

theorem find?_accounts_map {g : Account → Account}
    (hg : ∀ a, (g a).account_id = a.account_id) (l : List Account) (i : Nat) :
    (l.map g).find? (fun a => decide (a.account_id = i)) =
      (l.find? (fun a => decide (a.account_id = i))).map g := by
  rw [List.find?_map]
  have hfun : ((fun a : Account => decide (a.account_id = i)) ∘ g) =
      (fun a : Account => decide (a.account_id = i)) := by
    funext a
    simp only [Function.comp_apply, hg]
  rw [hfun]

theorem find?_txKey_append_single (u : Nat) (k : String)
    {l : List TransactionRow} (row : TransactionRow)
    (hnone : l.find? (txKeyMatches u k) = none)
    (hrow : txKeyMatches u k row = true) :
    (l ++ [row]).find? (txKeyMatches u k) = some row := by
  rw [find?_append_none _ hnone, List.find?_cons_of_pos _ hrow]

theorem countP_txKey_append_single (u : Nat) (k : String)
    {l : List TransactionRow} (row : TransactionRow)
    (hnone : l.find? (txKeyMatches u k) = none)
    (hrow : txKeyMatches u k row = true) :
    (l ++ [row]).countP (txKeyMatches u k) = 1 := by
  rw [List.countP_append]
  have hz : l.countP (txKeyMatches u k) = 0 :=
    List.countP_eq_zero.mpr (List.find?_eq_none.mp hnone)
  rw [hz]
  simp [List.countP_cons, hrow]

/-- The three data invariants bundled: schema well-formedness,
balance–ledger equality, and the two-entry zero-sum shape of SUCCEEDED
transfers. -/
def Invariants (s : DBState) : Prop :=
  WF s ∧ BalanceLedgerEq s ∧ ZeroSumSucceeded s

theorem invariants_after_reject (input : TransferInput) (s : DBState)
    (r0 : String) (audits : List AuditRow)
    (hW : WF s) (hB : BalanceLedgerEq s) (hZ : ZeroSumSucceeded s)
    (hf : findTransaction s input.initiatorUserId input.idempotencyKey =
      none) :
    Invariants
      { accounts := s.accounts
        transactions := s.transactions ++
          [{ pendingTransferRow input s.nextTxId with
             status := TxStatus.REJECTED
             failure_reason := some r0
             response_payload := some (Payload.rejected s.nextTxId r0) }]
        ledger_entries := s.ledger_entries
        audit_logs := audits
        nextTxId := s.nextTxId + 1 } := by
  refine ⟨⟨?_, ?_, ?_, ?_⟩, ?_, ?_⟩
  · exact hW.accounts_unique
  · intro t ht
    rcases List.mem_append.mp ht with h | h
    · exact Nat.lt_succ_of_lt (hW.tx_fresh t h)
    · rw [List.mem_singleton] at h
      subst h
      exact Nat.lt_succ_self s.nextTxId
  · intro e he
    exact Nat.lt_succ_of_lt (hW.ledger_fresh e he)
  · simp only [List.pairwise_append]
    refine ⟨hW.key_unique, by simp, ?_⟩
    intro t ht u hu
    rw [List.mem_singleton] at hu
    subst hu
    intro hkey htype _ hinit hkeq
    have hnm := List.find?_eq_none.mp hf t ht
    simp only [txKeyMatches, decide_eq_true_eq] at hnm
    exact hnm ⟨hinit, hkeq, htype⟩
  · exact hB
  · intro t ht hst hty
    rcases List.mem_append.mp ht with h | h
    · exact hZ t h hst hty
    · rw [List.mem_singleton] at h
      subst h
      exact TxStatus.noConfusion hst

theorem invariants_after_success (input : TransferInput) (s : DBState)
    (audits : List AuditRow)
    (hW : WF s) (hB : BalanceLedgerEq s) (hZ : ZeroSumSucceeded s)
    (hf : findTransaction s input.initiatorUserId input.idempotencyKey =
      none)
    (h1' : 0 < input.amount)
    (h2 : input.fromAccountId ≠ input.toAccountId)
    (hdeb : s.accounts.countP
      (debitMatches input.fromAccountId input.amount) ≠ 0)
    (hcred : s.accounts.countP (creditMatches input.toAccountId) ≠ 0) :
    Invariants
      { accounts := (s.accounts.map (debitApply input.fromAccountId
          input.amount)).map (creditApply input.toAccountId input.amount)
        transactions := s.transactions ++
          [{ pendingTransferRow input s.nextTxId with
             status := TxStatus.SUCCEEDED
             response_payload := some (Payload.succeeded s.nextTxId
               input.fromAccountId input.toAccountId input.amount) }]
        ledger_entries := s.ledger_entries ++
          [{ account_id := input.fromAccountId, transaction_id := s.nextTxId
             amount := -input.amount },
           { account_id := input.toAccountId, transaction_id := s.nextTxId
             amount := input.amount }]
        audit_logs := audits
        nextTxId := s.nextTxId + 1 } := by
  obtain ⟨dm, hdmmem, hdmpred⟩ :=
    List.countP_pos_iff.mp (Nat.pos_of_ne_zero hdeb)
  obtain ⟨cm, hcmmem, hcmpred⟩ :=
    List.countP_pos_iff.mp (Nat.pos_of_ne_zero hcred)
  have hdm' : dm.account_id = input.fromAccountId ∧
      dm.status = AccountStatus.ACTIVE ∧
      input.amount ≤ dm.current_balance := by
    simpa [debitMatches] using hdmpred
  have hcm' : cm.account_id = input.toAccountId ∧
      cm.status = AccountStatus.ACTIVE := by
    simpa [creditMatches] using hcmpred
  refine ⟨⟨?_, ?_, ?_, ?_⟩, ?_, ?_⟩
  · simp only [List.pairwise_map]
    apply hW.accounts_unique.imp
    intro a b hab
    simpa [creditApply_account_id, debitApply_account_id] using hab
  · intro t ht
    rcases List.mem_append.mp ht with h | h
    · exact Nat.lt_succ_of_lt (hW.tx_fresh t h)
    · rw [List.mem_singleton] at h
      subst h
      exact Nat.lt_succ_self s.nextTxId
  · intro e he
    rcases List.mem_append.mp he with h | h
    · exact Nat.lt_succ_of_lt (hW.ledger_fresh e h)
    · have h' : e = ({ account_id := input.fromAccountId, transaction_id := s.nextTxId, amount := -input.amount } : LedgerEntry) ∨ e = { account_id := input.toAccountId, transaction_id := s.nextTxId, amount := input.amount } := by
        simpa using h
      rcases h' with h' | h' <;> subst h' <;> exact Nat.lt_succ_self s.nextTxId
  · simp only [List.pairwise_append]
    refine ⟨hW.key_unique, by simp, ?_⟩
    intro t ht u hu
    rw [List.mem_singleton] at hu
    subst hu
    intro hkey htype _ hinit hkeq
    have hnm := List.find?_eq_none.mp hf t ht
    simp only [txKeyMatches, decide_eq_true_eq] at hnm
    exact hnm ⟨hinit, hkeq, htype⟩
  · intro a ha
    rw [List.mem_map] at ha
    obtain ⟨b, hb, hab⟩ := ha
    rw [List.mem_map] at hb
    obtain ⟨c, hc, hbc⟩ := hb
    subst hbc
    subst hab
    show (creditApply input.toAccountId input.amount
        (debitApply input.fromAccountId input.amount c)).current_balance =
      ledgerSumFor _ (creditApply input.toAccountId input.amount
        (debitApply input.fromAccountId input.amount c)).account_id
    rw [creditApply_account_id, debitApply_account_id, ledgerSumFor_append]
    have hmain := hB c hc
    by_cases hcf : c.account_id = input.fromAccountId
    · have hceq : c = dm := mem_eq_of_pairwise_ids hW.accounts_unique hc
        hdmmem (by rw [hcf, hdm'.1])
    -- c is the unique row the conditional debit hit
      have hdc : debitMatches input.fromAccountId input.amount c = true := by
        rw [hceq]
        exact hdmpred
      have hdebit : debitApply input.fromAccountId input.amount c =
          { c with current_balance := c.current_balance - input.amount } := by
        unfold debitApply
        rw [if_pos hdc]
      have hcredit : creditApply input.toAccountId input.amount
          { c with current_balance := c.current_balance - input.amount } =
          { c with current_balance := c.current_balance - input.amount } := by
        unfold creditApply
        rw [if_neg]
        simp only [creditMatches, decide_eq_true_eq, not_and]
        intro hid
        exact absurd (hcf ▸ hid) h2
      rw [hdebit, hcredit]
      have hsum2 : ledgerSumFor
          [{ account_id := input.fromAccountId
             transaction_id := s.nextTxId, amount := -input.amount },
           { account_id := input.toAccountId
             transaction_id := s.nextTxId, amount := input.amount }]
          c.account_id = -input.amount := by
        have h2' : ¬ (input.toAccountId = input.fromAccountId) :=
          fun hh => h2 hh.symm
        simp [ledgerSumFor, hcf, h2']
      rw [hsum2, hmain]
      rw [hcf]
      exact sub_eq_add_neg _ _
    · by_cases hct : c.account_id = input.toAccountId
      · have hceq : c = cm := mem_eq_of_pairwise_ids hW.accounts_unique hc
          hcmmem (by rw [hct, hcm'.1])
        have hcc : creditMatches input.toAccountId c = true := by
          rw [hceq]
          exact hcmpred
        have hdebit : debitApply input.fromAccountId input.amount c = c := by
          unfold debitApply
          rw [if_neg]
          simp only [debitMatches, decide_eq_true_eq, not_and]
          intro hid
          exact absurd (hct ▸ hid) (Ne.symm h2)
        have hcredit : creditApply input.toAccountId input.amount c =
            { c with current_balance := c.current_balance + input.amount } := by
          unfold creditApply
          rw [if_pos hcc]
        rw [hdebit, hcredit]
        have hsum2 : ledgerSumFor
            [{ account_id := input.fromAccountId
               transaction_id := s.nextTxId, amount := -input.amount },
             { account_id := input.toAccountId
               transaction_id := s.nextTxId, amount := input.amount }]
            c.account_id = input.amount := by
          have h2' : ¬ (input.fromAccountId = input.toAccountId) := h2
          simp [ledgerSumFor, hct, h2']
        rw [hsum2, hmain, hct]
    -- neither account: both conditional updates leave the row alone
      · have hdebit : debitApply input.fromAccountId input.amount c = c := by
          unfold debitApply
          rw [if_neg]
          simp only [debitMatches, decide_eq_true_eq, not_and]
          intro hid
          exact absurd hid hcf
        have hcredit : creditApply input.toAccountId input.amount c = c := by
          unfold creditApply
          rw [if_neg]
          simp only [creditMatches, decide_eq_true_eq, not_and]
          intro hid
          exact absurd hid hct
        rw [hdebit, hcredit]
        have hsum2 : ledgerSumFor
            [{ account_id := input.fromAccountId
               transaction_id := s.nextTxId, amount := -input.amount },
             { account_id := input.toAccountId
               transaction_id := s.nextTxId, amount := input.amount }]
            c.account_id = 0 := by
          have hcf' : ¬ (input.fromAccountId = c.account_id) :=
            fun hh => hcf hh.symm
          have hct' : ¬ (input.toAccountId = c.account_id) :=
            fun hh => hct hh.symm
          simp [ledgerSumFor, hcf', hct']
        rw [hsum2, hmain]
        exact (add_zero _).symm
  · intro t ht hst hty
    rcases List.mem_append.mp ht with h | h
    · have hz := hZ t h hst hty
      refine ⟨hz.1, ?_⟩
      have hfr : ∀ e ∈ [({ account_id := input.fromAccountId, transaction_id := s.nextTxId, amount := -input.amount } : LedgerEntry), { account_id := input.toAccountId, transaction_id := s.nextTxId, amount := input.amount }], e.transaction_id ≠ t.transaction_id := by
        intro e he
        have h' : e.transaction_id = s.nextTxId := by
          rcases (by simpa using he : e = ({ account_id := input.fromAccountId, transaction_id := s.nextTxId, amount := -input.amount } : LedgerEntry) ∨ e = { account_id := input.toAccountId, transaction_id := s.nextTxId, amount := input.amount }) with h' | h' <;> rw [h']
        rw [h']
        exact fun hh => Nat.ne_of_lt (hW.tx_fresh t h) hh.symm
      rw [entriesFor_append, entriesFor_nil_of_fresh hfr, List.append_nil]
      exact hz.2
    · rw [List.mem_singleton] at h
      subst h
      refine ⟨h1', ?_⟩
      simp only [pendingTransferRow]
      rw [entriesFor_append, entriesFor_nil_of_fresh
        (fun e he => Nat.ne_of_lt (hW.ledger_fresh e he)),
        List.nil_append]
      simp [entriesFor]

theorem step_preserves (input : TransferInput) (s : DBState)
    (h : Invariants s) : Invariants (transferFunds input s).2 := by
  obtain ⟨hW, hB, hZ⟩ := h
  by_cases h1 : input.amount ≤ 0
  · have hid : (transferFunds input s).2 = s := by
      unfold transferFunds
      rw [if_pos h1]
    rw [hid]
    exact ⟨hW, hB, hZ⟩
  by_cases h2 : input.fromAccountId = input.toAccountId
  · have hid : (transferFunds input s).2 = s := by
      unfold transferFunds
      rw [if_neg h1, if_pos h2]
    rw [hid]
    exact ⟨hW, hB, hZ⟩
  by_cases h3 : input.idempotencyKey = ""
  · have hid : (transferFunds input s).2 = s := by
      unfold transferFunds
      rw [if_neg h1, if_neg h2, if_pos h3]
    rw [hid]
    exact ⟨hW, hB, hZ⟩
  have h1' := not_le.mp h1
  have hbody := transferFunds_eq_body input s h1' h2 h3
  have hfresh : ∀ t' ∈ s.transactions, t'.transaction_id ≠ s.nextTxId :=
    fun t' ht' => Nat.ne_of_lt (hW.tx_fresh t' ht')
  cases hf : findTransaction s input.initiatorUserId input.idempotencyKey with
  | some t =>
    have hid : (transferFunds input s).2 = s := by
      rw [hbody, transferBody_replay input s t hf]
    rw [hid]
    exact ⟨hW, hB, hZ⟩
  | none =>
    cases hr : rejectionReasonOf (findAccount s input.fromAccountId)
        (findAccount s input.toAccountId) with
    | some r0 =>
      have hclean : (transferFunds input s).2 =
          { accounts := s.accounts
            transactions := s.transactions ++
              [{ pendingTransferRow input s.nextTxId with
                 status := TxStatus.REJECTED
                 failure_reason := some r0
                 response_payload :=
                   some (Payload.rejected s.nextTxId r0) }]
            ledger_entries := s.ledger_entries
            audit_logs := s.audit_logs ++
              [attemptedAudit input s.nextTxId,
               rejectedAudit input s.nextTxId r0]
            nextTxId := s.nextTxId + 1 } := by
        rw [hbody]
        simp only [transferBody_reject input s r0 hf hr, List.map_append,
          map_rejectApply_fresh _ _ hfresh, List.map_cons, List.map_nil,
          rejectApply_pending]
      rw [hclean]
      exact invariants_after_reject input s r0 _ hW hB hZ hf
    | none =>
      by_cases hd : s.accounts.countP
          (debitMatches input.fromAccountId input.amount) = 0
      · have hclean : (transferFunds input s).2 =
            { accounts := s.accounts
              transactions := s.transactions ++
                [{ pendingTransferRow input s.nextTxId with
                   status := TxStatus.REJECTED
                   failure_reason := some "INSUFFICIENT_FUNDS"
                   response_payload := some (Payload.rejected s.nextTxId
                     "INSUFFICIENT_FUNDS") }]
              ledger_entries := s.ledger_entries
              audit_logs := s.audit_logs ++
                [attemptedAudit input s.nextTxId,
                 rejectedAudit input s.nextTxId "INSUFFICIENT_FUNDS"]
              nextTxId := s.nextTxId + 1 } := by
          rw [hbody]
          simp only [transferBody_insufficient input s hf hr hd,
            List.map_append, map_rejectApply_fresh _ _ hfresh,
            List.map_cons, List.map_nil, rejectApply_pending]
        rw [hclean]
        exact invariants_after_reject input s "INSUFFICIENT_FUNDS" _
          hW hB hZ hf
      · by_cases hc : s.accounts.countP
            (creditMatches input.toAccountId) = 0
        · have hid : (transferFunds input s).2 = s := by
            rw [hbody, transferBody_creditfail input s hf hr hd hc]
          rw [hid]
          exact ⟨hW, hB, hZ⟩
        · have hclean : (transferFunds input s).2 =
              { accounts := (s.accounts.map (debitApply input.fromAccountId
                  input.amount)).map (creditApply input.toAccountId
                  input.amount)
                transactions := s.transactions ++
                  [{ pendingTransferRow input s.nextTxId with
                     status := TxStatus.SUCCEEDED
                     response_payload := some (Payload.succeeded s.nextTxId
                       input.fromAccountId input.toAccountId input.amount) }]
                ledger_entries := s.ledger_entries ++
                  [{ account_id := input.fromAccountId
                     transaction_id := s.nextTxId, amount := -input.amount },
                   { account_id := input.toAccountId
                     transaction_id := s.nextTxId, amount := input.amount }]
                audit_logs := s.audit_logs ++
                  [attemptedAudit input s.nextTxId,
                   succeededAudit input s.nextTxId]
                nextTxId := s.nextTxId + 1 } := by
            rw [hbody]
            simp only [transferBody_success input s hf hr hd hc,
              List.map_append, map_succeedApply_fresh _ hfresh,
              List.map_cons, List.map_nil, succeedApply_pending]
          rw [hclean]
          exact invariants_after_success input s _ hW hB hZ hf h1' h2 hd hc

/-! ### Claim theorems -/

/-- C6: a call violating a precondition — `amount ≤ 0`, equal account ids,
or an absent idempotency key — returns the corresponding input-fault value
(INVALID_AMOUNT, SAME_ACCOUNT, MISSING_IDEMPOTENCY_KEY, checked in that
order) with the database state unchanged: no transaction is opened, no
transactions row is created, no side effect happens. -/
theorem C6_input_faults (input : TransferInput) (s : DBState) :
    (input.amount ≤ 0 →
      transferFunds input s = (TransferOutput.ok (some (Payload.inputFault
        "INVALID_AMOUNT" "Amount must be greater than 0")), s)) ∧
    (0 < input.amount → input.fromAccountId = input.toAccountId →
      transferFunds input s = (TransferOutput.ok (some (Payload.inputFault
        "SAME_ACCOUNT" "Cannot transfer to the same account")), s)) ∧
    (0 < input.amount → input.fromAccountId ≠ input.toAccountId →
      input.idempotencyKey = "" →
      transferFunds input s = (TransferOutput.ok (some (Payload.inputFault
        "MISSING_IDEMPOTENCY_KEY" "Idempotency key is required for TRANSFER")),
        s)) := by
  refine ⟨fun h1 => ?_, fun h1 h2 => ?_, fun h1 h2 h3 => ?_⟩
  · unfold transferFunds
    rw [if_pos h1]
  · unfold transferFunds
    rw [if_neg (not_le.mpr h1), if_pos h2]
  · unfold transferFunds
    rw [if_neg (not_le.mpr h1), if_neg h2, if_pos h3]

/-- C10: every fault `transferFunds` raises is built by its catch block as a
plain JS `Error` with message `TRANSFER_SYSTEM_FAILURE: <inner reason>` —
never an instance of the `TransferSystemError` class — so the global error
middleware's `instanceof TransferSystemError` branch never fires for service
faults and classifies them as INTERNAL_SERVER_ERROR (while that branch would
answer TRANSFER_SYSTEM_FAILURE if such an instance ever reached it). -/
theorem C10_fault_classification :
    (∀ input s, (∃ v s1, transferFunds input s = (TransferOutput.ok v, s1)) ∨
      ∃ m, transferFunds input s =
        (TransferOutput.fault (rethrowSystemFailure m), s)) ∧
    (∀ m, rethrowSystemFailure m =
        JsError.plainError ("TRANSFER_SYSTEM_FAILURE: " ++ m) ∧
      instanceOfTransferSystemError (rethrowSystemFailure m) = false ∧
      errorHandler (rethrowSystemFailure m) =
        { statusCode := 500, success := false,
          error := "INTERNAL_SERVER_ERROR" } ∧
      errorHandler (JsError.transferSystemError m) =
        { statusCode := 500, success := false,
          error := "TRANSFER_SYSTEM_FAILURE" }) := by
  constructor
  · intro input s
    unfold transferFunds
    by_cases h1 : input.amount ≤ 0
    · rw [if_pos h1]
      exact Or.inl ⟨_, _, rfl⟩
    · rw [if_neg h1]
      by_cases h2 : input.fromAccountId = input.toAccountId
      · rw [if_pos h2]
        exact Or.inl ⟨_, _, rfl⟩
      · rw [if_neg h2]
        by_cases h3 : input.idempotencyKey = ""
        · rw [if_pos h3]
          exact Or.inl ⟨_, _, rfl⟩
        · rw [if_neg h3]
          cases hb : transferBody input s with
          | ok p => exact Or.inl ⟨p.1, p.2, rfl⟩
          | error m => exact Or.inr ⟨m, rfl⟩
  · intro m
    exact ⟨rfl, rfl, rfl, rfl⟩

/-- C3 counterexample: the claim says a PENDING prior row yields an IN_FLIGHT
rejection and a FAILED prior row yields PREVIOUS_ATTEMPT_FAILED. The code
returns the stored `response_payload` unconditionally: at a state with a
PENDING row (no payload stored yet) the call returns the stored null — not an
IN_FLIGHT rejection — and at a state with a FAILED row it likewise returns
the stored null, not PREVIOUS_ATTEMPT_FAILED; the state is untouched. -/
theorem C3_counterexample :
    transferFunds ⟨100, 1, 2, 10, "kp"⟩
      { accounts := []
        transactions :=
          [⟨7, TxStatus.PENDING, "TRANSFER", 100, 1, 2, 10, "kp", none, none⟩]
        ledger_entries := [], audit_logs := [], nextTxId := 8 } =
      (TransferOutput.ok none,
       { accounts := []
         transactions :=
           [⟨7, TxStatus.PENDING, "TRANSFER", 100, 1, 2, 10, "kp", none, none⟩]
         ledger_entries := [], audit_logs := [], nextTxId := 8 }) ∧
    transferFunds ⟨100, 1, 2, 10, "kf"⟩
      { accounts := []
        transactions :=
          [⟨3, TxStatus.FAILED, "TRANSFER", 100, 1, 2, 10, "kf", none,
            some "CREDIT_FAILED_ROLLBACK"⟩]
        ledger_entries := [], audit_logs := [], nextTxId := 4 } =
      (TransferOutput.ok none,
       { accounts := []
         transactions :=
           [⟨3, TxStatus.FAILED, "TRANSFER", 100, 1, 2, 10, "kf", none,
             some "CREDIT_FAILED_ROLLBACK"⟩]
         ledger_entries := [], audit_logs := [], nextTxId := 4 }) ∧
    TransferOutput.ok (none : Option Payload) ≠
      TransferOutput.ok (some (Payload.rejected 7 "IN_FLIGHT")) ∧
    TransferOutput.ok (none : Option Payload) ≠
      TransferOutput.ok (some (Payload.rejected 3 "PREVIOUS_ATTEMPT_FAILED")) := by
  refine ⟨by decide, by decide, by decide, by decide⟩

/-- C3 (amended): when the idempotency lookup finds a prior transaction for
(initiator_user_id, idempotency_key, type=TRANSFER), `transferFunds` returns
that row's stored `response_payload` verbatim — whatever the row's status,
PENDING and FAILED included (null when no payload was stored) — and commits
with the state unchanged; no IN_FLIGHT or PREVIOUS_ATTEMPT_FAILED handling
exists. -/
theorem C3_replay_returns_stored_payload (input : TransferInput)
    (s : DBState) (t : TransactionRow)
    (h1 : 0 < input.amount) (h2 : input.fromAccountId ≠ input.toAccountId)
    (h3 : input.idempotencyKey ≠ "")
    (hfind : findTransaction s input.initiatorUserId input.idempotencyKey =
      some t) :
    transferFunds input s = (TransferOutput.ok t.response_payload, s) := by
  rw [transferFunds_eq_body input s h1 h2 h3,
    transferBody_replay input s t hfind]

/-- C3 witness: the amended behavior at the concrete PENDING-row state. -/
theorem C3_witness :
    transferFunds ⟨100, 1, 2, 10, "kp"⟩
      { accounts := []
        transactions :=
          [⟨7, TxStatus.PENDING, "TRANSFER", 100, 1, 2, 10, "kp", none, none⟩]
        ledger_entries := [], audit_logs := [], nextTxId := 8 } =
      (TransferOutput.ok none,
       { accounts := []
         transactions :=
           [⟨7, TxStatus.PENDING, "TRANSFER", 100, 1, 2, 10, "kp", none, none⟩]
         ledger_entries := [], audit_logs := [], nextTxId := 8 }) :=
  C3_replay_returns_stored_payload ⟨100, 1, 2, 10, "kp"⟩
    { accounts := []
      transactions :=
        [⟨7, TxStatus.PENDING, "TRANSFER", 100, 1, 2, 10, "kp", none, none⟩]
      ledger_entries := [], audit_logs := [], nextTxId := 8 }
    ⟨7, TxStatus.PENDING, "TRANSFER", 100, 1, 2, 10, "kp", none, none⟩
    (by decide) (by decide) (by decide) (by decide)

/-- C9 counterexample: at a state already holding a conflicting TRANSFER row
(the situation a concurrent duplicate insert leaves behind), the admission
phase — the INSERT of the PENDING row and everything after it — raises the
duplicate-key error; the claimed behavior, returning the now-visible prior
result (here the stored `{success:true, transactionId:3, ...}` payload), is
not what happens. -/
theorem C9_counterexample :
    admitOnwards ⟨100, 1, 2, 10, "kc"⟩
      { accounts := []
        transactions :=
          [⟨3, TxStatus.SUCCEEDED, "TRANSFER", 100, 1, 2, 10, "kc",
            some (Payload.succeeded 3 1 2 10), none⟩]
        ledger_entries := [], audit_logs := [], nextTxId := 4 } =
      Except.error uniqueViolationMessage ∧
    (Except.error uniqueViolationMessage :
        Except String (Option Payload × DBState)) ≠
      Except.ok (some (Payload.succeeded 3 1 2 10),
        { accounts := []
          transactions :=
            [⟨3, TxStatus.SUCCEEDED, "TRANSFER", 100, 1, 2, 10, "kc",
              some (Payload.succeeded 3 1 2 10), none⟩]
          ledger_entries := [], audit_logs := [], nextTxId := 4 }) := by
  refine ⟨rfl, fun h => Except.noConfusion h⟩

/-- C9 (amended): there is no bounded retry. When the INSERT of the PENDING
row hits the unique partial index (a conflicting `(initiator_user_id,
idempotency_key, type='TRANSFER')` row is present), the duplicate-key error
propagates out of the admission phase, and — like every error thrown inside
the transaction body — is surfaced by the catch block as a
`TRANSFER_SYSTEM_FAILURE:`-prefixed fault with the database rolled back; the
idempotency lookup is not re-entered and no prior result is returned. -/
theorem C9_unique_violation_surfaces_fault (input : TransferInput)
    (s : DBState)
    (hconf : s.transactions.any (uniqueIndexConflict input) = true) :
    admitOnwards input s = Except.error uniqueViolationMessage ∧
    (∀ s0, 0 < input.amount → input.fromAccountId ≠ input.toAccountId →
      input.idempotencyKey ≠ "" →
      transferBody input s0 = Except.error uniqueViolationMessage →
      transferFunds input s0 =
        (TransferOutput.fault (rethrowSystemFailure uniqueViolationMessage),
          s0)) := by
  constructor
  · unfold admitOnwards insertPendingTransaction
    rw [if_pos hconf]
  · intro s0 h1 h2 h3 hb
    exact transferFunds_fault input s0 _ h1 h2 h3 hb

/-- C9 witness: the fault at the concrete conflicted state. -/
theorem C9_witness :
    admitOnwards ⟨100, 1, 2, 10, "kc"⟩
      { accounts := []
        transactions :=
          [⟨3, TxStatus.SUCCEEDED, "TRANSFER", 100, 1, 2, 10, "kc",
            some (Payload.succeeded 3 1 2 10), none⟩]
        ledger_entries := [], audit_logs := [], nextTxId := 4 } =
      Except.error uniqueViolationMessage :=
  (C9_unique_violation_surfaces_fault ⟨100, 1, 2, 10, "kc"⟩
    { accounts := []
      transactions :=
        [⟨3, TxStatus.SUCCEEDED, "TRANSFER", 100, 1, 2, 10, "kc",
          some (Payload.succeeded 3 1 2 10), none⟩]
      ledger_entries := [], audit_logs := [], nextTxId := 4 }
    (by decide)).1

/-- C2: when the credit update affects zero rows after a successful debit,
the service throws `Error('CREDIT_FAILED_ROLLBACK')`; the database
transaction rolls back (the resulting state is exactly the pre-call state:
balances unchanged, zero ledger rows) and the fault surfaces as
`TRANSFER_SYSTEM_FAILURE: CREDIT_FAILED_ROLLBACK`. Because the returned
state is the unchanged pre-call state, no transactions row with
status=FAILED and no SYSTEM audit row are persisted: the compensating
second transaction the claim (with spec section 4.7 and the repository's own
test transfer.fail.credit-update.test.js) requires does not exist in the
code. -/
theorem C2_credit_failure_no_compensating_write (input : TransferInput)
    (transactionId : Nat) (sMid : DBState)
    (hcred : (creditUpdate sMid input.toAccountId input.amount).1 = 0) :
    creditOnwards input transactionId sMid =
      Except.error "CREDIT_FAILED_ROLLBACK" ∧
    (∀ s, 0 < input.amount → input.fromAccountId ≠ input.toAccountId →
      input.idempotencyKey ≠ "" →
      transferBody input s = Except.error "CREDIT_FAILED_ROLLBACK" →
      transferFunds input s = (TransferOutput.fault (JsError.plainError
        "TRANSFER_SYSTEM_FAILURE: CREDIT_FAILED_ROLLBACK"), s)) := by
  constructor
  · exact creditOnwards_error input transactionId sMid hcred
  · intro s h1 h2 h3 hb
    have h := transferFunds_fault input s _ h1 h2 h3 hb
    have hmsg : rethrowSystemFailure "CREDIT_FAILED_ROLLBACK" =
        JsError.plainError "TRANSFER_SYSTEM_FAILURE: CREDIT_FAILED_ROLLBACK" :=
      by decide
    rw [hmsg] at h
    exact h

/-- C2 witness: the thrown rollback at a concrete mid-transaction state in
which the to-account froze between the eligibility read and the credit. -/
theorem C2_witness :
    creditOnwards ⟨100, 1, 2, 10, "k"⟩ 5
      { accounts := [⟨1, AccountStatus.ACTIVE, 100⟩,
                     ⟨2, AccountStatus.FROZEN, 0⟩]
        transactions := [], ledger_entries := [], audit_logs := []
        nextTxId := 6 } = Except.error "CREDIT_FAILED_ROLLBACK" :=
  (C2_credit_failure_no_compensating_write ⟨100, 1, 2, 10, "k"⟩ 5
    { accounts := [⟨1, AccountStatus.ACTIVE, 100⟩,
                   ⟨2, AccountStatus.FROZEN, 0⟩]
      transactions := [], ledger_entries := [], audit_logs := []
      nextTxId := 6 }
    (by decide)).1

/-- C7: for an admitted transfer the rejection reason is decided by the fixed
first-match-wins cascade FROM_ACCOUNT_NOT_FOUND, FROM_ACCOUNT_NOT_ACTIVE,
TO_ACCOUNT_NOT_FOUND, TO_ACCOUNT_NOT_ACTIVE (the trailing conjuncts
characterize the cascade), and on any match the transaction row is committed
as REJECTED with that `failure_reason` and the stored payload
`{success:false, transactionId, status:'REJECTED', reason}`, a REJECTED audit
row follows the ATTEMPTED one, nothing else changes, and the payload is
returned. -/
theorem C7_eligibility_rejection (input : TransferInput) (s : DBState)
    (r : String) (hW : WF s)
    (h1 : 0 < input.amount) (h2 : input.fromAccountId ≠ input.toAccountId)
    (h3 : input.idempotencyKey ≠ "")
    (hfind : findTransaction s input.initiatorUserId input.idempotencyKey =
      none)
    (hrr : rejectionReasonOf (findAccount s input.fromAccountId)
      (findAccount s input.toAccountId) = some r) :
    transferFunds input s =
      (TransferOutput.ok (some (Payload.rejected s.nextTxId r)),
        { accounts := s.accounts
          transactions := s.transactions ++
            [{ pendingTransferRow input s.nextTxId with
               status := TxStatus.REJECTED
               failure_reason := some r
               response_payload := some (Payload.rejected s.nextTxId r) }]
          ledger_entries := s.ledger_entries
          audit_logs := s.audit_logs ++
            [attemptedAudit input s.nextTxId,
             rejectedAudit input s.nextTxId r]
          nextTxId := s.nextTxId + 1 }) ∧
    (∀ ta, rejectionReasonOf none ta = some "FROM_ACCOUNT_NOT_FOUND") ∧
    (∀ fa ta, fa.status ≠ AccountStatus.ACTIVE →
      rejectionReasonOf (some fa) ta = some "FROM_ACCOUNT_NOT_ACTIVE") ∧
    (∀ fa, fa.status = AccountStatus.ACTIVE →
      rejectionReasonOf (some fa) none = some "TO_ACCOUNT_NOT_FOUND") ∧
    (∀ fa ta, fa.status = AccountStatus.ACTIVE →
      ta.status ≠ AccountStatus.ACTIVE →
      rejectionReasonOf (some fa) (some ta) =
        some "TO_ACCOUNT_NOT_ACTIVE") ∧
    (∀ fa ta, fa.status = AccountStatus.ACTIVE →
      ta.status = AccountStatus.ACTIVE →
      rejectionReasonOf (some fa) (some ta) = none) := by
  refine ⟨?_, ?_, ?_, ?_, ?_, ?_⟩
  · rw [transferFunds_eq_body input s h1 h2 h3,
      transferBody_reject input s r hfind hrr]
    have hfresh : ∀ t ∈ s.transactions, t.transaction_id ≠ s.nextTxId :=
      fun t ht => Nat.ne_of_lt (hW.tx_fresh t ht)
    simp only [List.map_append, map_rejectApply_fresh _ _ hfresh,
      List.map_cons, List.map_nil, rejectApply_pending]
  · intro ta
    rfl
  · intro fa ta h
    simp [rejectionReasonOf, h]
  · intro fa h
    simp [rejectionReasonOf, h]
  · intro fa ta h h'
    simp [rejectionReasonOf, h, h']
  · intro fa ta h h'
    simp [rejectionReasonOf, h, h']

/-- C7 witness: the FROM_ACCOUNT_NOT_ACTIVE rejection at the concrete
frozen-from-account scenario of the spec. -/
theorem C7_witness :
    transferFunds ⟨100, 1, 2, 1000, "k3"⟩
      { accounts := [⟨1, AccountStatus.FROZEN, 5000⟩,
                     ⟨2, AccountStatus.ACTIVE, 2000⟩]
        transactions := [], ledger_entries := [], audit_logs := []
        nextTxId := 0 } =
      (TransferOutput.ok (some (Payload.rejected 0 "FROM_ACCOUNT_NOT_ACTIVE")),
        { accounts := [⟨1, AccountStatus.FROZEN, 5000⟩,
                       ⟨2, AccountStatus.ACTIVE, 2000⟩]
          transactions :=
            [{ pendingTransferRow ⟨100, 1, 2, 1000, "k3"⟩ 0 with
               status := TxStatus.REJECTED
               failure_reason := some "FROM_ACCOUNT_NOT_ACTIVE"
               response_payload :=
                 some (Payload.rejected 0 "FROM_ACCOUNT_NOT_ACTIVE") }]
          ledger_entries := []
          audit_logs := [attemptedAudit ⟨100, 1, 2, 1000, "k3"⟩ 0,
            rejectedAudit ⟨100, 1, 2, 1000, "k3"⟩ 0 "FROM_ACCOUNT_NOT_ACTIVE"]
          nextTxId := 1 }) :=
  (C7_eligibility_rejection ⟨100, 1, 2, 1000, "k3"⟩
    { accounts := [⟨1, AccountStatus.FROZEN, 5000⟩,
                   ⟨2, AccountStatus.ACTIVE, 2000⟩]
      transactions := [], ledger_entries := [], audit_logs := []
      nextTxId := 0 }
    "FROM_ACCOUNT_NOT_ACTIVE"
    ⟨by decide, by decide, by decide, by decide⟩
    (by decide) (by decide) (by decide) (by decide) (by decide)).1

/-- C5: when both accounts exist and are ACTIVE and the from-account covers
the amount, the call returns the success payload `{success:true,
transactionId, status:'SUCCEEDED', fromAccountId, toAccountId, amount}` and
commits a state in which the from-balance decreased and the to-balance
increased by the amount, exactly the two ledger rows (-amount on from,
+amount on to) were appended, the transaction row is SUCCEEDED with the
payload stored, and the ATTEMPTED and SUCCEEDED audit rows were appended. -/
theorem C5_success (input : TransferInput) (s : DBState) (fa ta : Account)
    (hW : WF s)
    (h1 : 0 < input.amount) (h2 : input.fromAccountId ≠ input.toAccountId)
    (h3 : input.idempotencyKey ≠ "")
    (hfind : findTransaction s input.initiatorUserId input.idempotencyKey =
      none)
    (hfa : findAccount s input.fromAccountId = some fa)
    (hfa_active : fa.status = AccountStatus.ACTIVE)
    (hfa_bal : input.amount ≤ fa.current_balance)
    (hta : findAccount s input.toAccountId = some ta)
    (hta_active : ta.status = AccountStatus.ACTIVE) :
    (transferFunds input s).1 =
      TransferOutput.ok (some (Payload.succeeded s.nextTxId
        input.fromAccountId input.toAccountId input.amount)) ∧
    findAccount (transferFunds input s).2 input.fromAccountId =
      some { fa with current_balance := fa.current_balance - input.amount } ∧
    findAccount (transferFunds input s).2 input.toAccountId =
      some { ta with current_balance := ta.current_balance + input.amount } ∧
    (transferFunds input s).2.ledger_entries = s.ledger_entries ++
      [{ account_id := input.fromAccountId, transaction_id := s.nextTxId
         amount := -input.amount },
       { account_id := input.toAccountId, transaction_id := s.nextTxId
         amount := input.amount }] ∧
    (transferFunds input s).2.transactions = s.transactions ++
      [{ pendingTransferRow input s.nextTxId with
         status := TxStatus.SUCCEEDED
         response_payload := some (Payload.succeeded s.nextTxId
           input.fromAccountId input.toAccountId input.amount) }] ∧
    (transferFunds input s).2.audit_logs = s.audit_logs ++
      [attemptedAudit input s.nextTxId, succeededAudit input s.nextTxId] := by
  have hfa0 : s.accounts.find?
      (fun a => decide (a.account_id = input.fromAccountId)) = some fa := hfa
  have hta0 : s.accounts.find?
      (fun a => decide (a.account_id = input.toAccountId)) = some ta := hta
  have hpfa := List.find?_some hfa0
  have hfaid : fa.account_id = input.fromAccountId := by simpa using hpfa
  have hfamem : fa ∈ s.accounts := List.mem_of_find?_eq_some hfa0
  have hpta := List.find?_some hta0
  have htaid : ta.account_id = input.toAccountId := by simpa using hpta
  have htamem : ta ∈ s.accounts := List.mem_of_find?_eq_some hta0
  have hdm : debitMatches input.fromAccountId input.amount fa = true :=
    decide_eq_true ⟨hfaid, hfa_active, hfa_bal⟩
  have hcm : creditMatches input.toAccountId ta = true :=
    decide_eq_true ⟨htaid, hta_active⟩
  have hdeb : s.accounts.countP
      (debitMatches input.fromAccountId input.amount) ≠ 0 :=
    Nat.pos_iff_ne_zero.mp (List.countP_pos_iff.mpr ⟨fa, hfamem, hdm⟩)
  have hcred : s.accounts.countP (creditMatches input.toAccountId) ≠ 0 :=
    Nat.pos_iff_ne_zero.mp (List.countP_pos_iff.mpr ⟨ta, htamem, hcm⟩)
  have hrr : rejectionReasonOf (findAccount s input.fromAccountId)
      (findAccount s input.toAccountId) = none := by
    rw [hfa, hta]
    simp [rejectionReasonOf, hfa_active, hta_active]
  have hrun := transferFunds_eq_body input s h1 h2 h3
  rw [transferBody_success input s hfind hrr hdeb hcred] at hrun
  have hfst : (transferFunds input s).1 =
      TransferOutput.ok (some (Payload.succeeded s.nextTxId
        input.fromAccountId input.toAccountId input.amount)) := by
    rw [hrun]
  have hacc : (transferFunds input s).2.accounts =
      (s.accounts.map (debitApply input.fromAccountId input.amount)).map
        (creditApply input.toAccountId input.amount) := by
    rw [hrun]
  have hfresh : ∀ t ∈ s.transactions, t.transaction_id ≠ s.nextTxId :=
    fun t ht => Nat.ne_of_lt (hW.tx_fresh t ht)
  have hdfa : debitApply input.fromAccountId input.amount fa =
      { fa with current_balance := fa.current_balance - input.amount } := by
    unfold debitApply
    rw [if_pos hdm]
  have hcfa : creditApply input.toAccountId input.amount
      { fa with current_balance := fa.current_balance - input.amount } =
      { fa with current_balance := fa.current_balance - input.amount } := by
    unfold creditApply
    rw [if_neg]
    simp only [creditMatches, decide_eq_true_eq, not_and]
    intro hid
    exact absurd (hfaid.symm.trans hid) h2
  have hdta : debitApply input.fromAccountId input.amount ta = ta := by
    unfold debitApply
    rw [if_neg]
    simp only [debitMatches, decide_eq_true_eq, not_and]
    intro hid
    exact absurd (htaid.symm.trans hid) (Ne.symm h2)
  have hcta : creditApply input.toAccountId input.amount ta =
      { ta with current_balance := ta.current_balance + input.amount } := by
    unfold creditApply
    rw [if_pos hcm]
  refine ⟨hfst, ?_, ?_, ?_, ?_, ?_⟩
  · show (transferFunds input s).2.accounts.find?
      (fun a => decide (a.account_id = input.fromAccountId)) = _
    rw [hacc,
      find?_accounts_map (creditApply_account_id input.toAccountId
        input.amount),
      find?_accounts_map (debitApply_account_id input.fromAccountId
        input.amount)]
    have hfa' : s.accounts.find?
        (fun a => decide (a.account_id = input.fromAccountId)) = some fa := hfa
    rw [hfa', Option.map_some', Option.map_some', hdfa, hcfa]
  · show (transferFunds input s).2.accounts.find?
      (fun a => decide (a.account_id = input.toAccountId)) = _
    rw [hacc,
      find?_accounts_map (creditApply_account_id input.toAccountId
        input.amount),
      find?_accounts_map (debitApply_account_id input.fromAccountId
        input.amount)]
    have hta' : s.accounts.find?
        (fun a => decide (a.account_id = input.toAccountId)) = some ta := hta
    rw [hta', Option.map_some', Option.map_some', hdta, hcta]
  · rw [hrun]
  · have htr : (transferFunds input s).2.transactions =
        (s.transactions ++ [pendingTransferRow input s.nextTxId]).map
          (succeedApply s.nextTxId (Payload.succeeded s.nextTxId
            input.fromAccountId input.toAccountId input.amount)) := by
      rw [hrun]
    rw [htr, List.map_append, map_succeedApply_fresh _ hfresh,
      List.map_cons, List.map_nil, succeedApply_pending]
  · rw [hrun]

/-- C5 witness: the spec's literal success scenario — balances 10000 and
5000, amount 3000 — ends with balances 7000 and 8000, the two ledger rows,
the SUCCEEDED transaction row with stored payload, and the two audit rows. -/
theorem C5_witness :
    (transferFunds ⟨100, 1, 2, 3000, "k1"⟩
      { accounts := [⟨1, AccountStatus.ACTIVE, 10000⟩,
                     ⟨2, AccountStatus.ACTIVE, 5000⟩]
        transactions := [], ledger_entries := [], audit_logs := []
        nextTxId := 0 }).1 =
      TransferOutput.ok (some (Payload.succeeded 0 1 2 3000)) ∧
    findAccount (transferFunds ⟨100, 1, 2, 3000, "k1"⟩
      { accounts := [⟨1, AccountStatus.ACTIVE, 10000⟩,
                     ⟨2, AccountStatus.ACTIVE, 5000⟩]
        transactions := [], ledger_entries := [], audit_logs := []
        nextTxId := 0 }).2 1 = some ⟨1, AccountStatus.ACTIVE, 7000⟩ ∧
    findAccount (transferFunds ⟨100, 1, 2, 3000, "k1"⟩
      { accounts := [⟨1, AccountStatus.ACTIVE, 10000⟩,
                     ⟨2, AccountStatus.ACTIVE, 5000⟩]
        transactions := [], ledger_entries := [], audit_logs := []
        nextTxId := 0 }).2 2 = some ⟨2, AccountStatus.ACTIVE, 8000⟩ ∧
    (transferFunds ⟨100, 1, 2, 3000, "k1"⟩
      { accounts := [⟨1, AccountStatus.ACTIVE, 10000⟩,
                     ⟨2, AccountStatus.ACTIVE, 5000⟩]
        transactions := [], ledger_entries := [], audit_logs := []
        nextTxId := 0 }).2.ledger_entries =
      [⟨1, 0, -3000⟩, ⟨2, 0, 3000⟩] ∧
    (transferFunds ⟨100, 1, 2, 3000, "k1"⟩
      { accounts := [⟨1, AccountStatus.ACTIVE, 10000⟩,
                     ⟨2, AccountStatus.ACTIVE, 5000⟩]
        transactions := [], ledger_entries := [], audit_logs := []
        nextTxId := 0 }).2.transactions =
      [⟨0, TxStatus.SUCCEEDED, "TRANSFER", 100, 1, 2, 3000, "k1",
        some (Payload.succeeded 0 1 2 3000), none⟩] ∧
    (transferFunds ⟨100, 1, 2, 3000, "k1"⟩
      { accounts := [⟨1, AccountStatus.ACTIVE, 10000⟩,
                     ⟨2, AccountStatus.ACTIVE, 5000⟩]
        transactions := [], ledger_entries := [], audit_logs := []
        nextTxId := 0 }).2.audit_logs =
      [attemptedAudit ⟨100, 1, 2, 3000, "k1"⟩ 0,
       succeededAudit ⟨100, 1, 2, 3000, "k1"⟩ 0] :=
  C5_success ⟨100, 1, 2, 3000, "k1"⟩
    { accounts := [⟨1, AccountStatus.ACTIVE, 10000⟩,
                   ⟨2, AccountStatus.ACTIVE, 5000⟩]
      transactions := [], ledger_entries := [], audit_logs := []
      nextTxId := 0 }
    ⟨1, AccountStatus.ACTIVE, 10000⟩ ⟨2, AccountStatus.ACTIVE, 5000⟩
    ⟨by decide, by decide, by decide, by decide⟩
    (by decide) (by decide) (by decide) (by decide) (by decide) (by decide)
    (by decide) (by decide) (by decide)

/-- C8: every call that ends REJECTED — the eligibility rejections and the
INSUFFICIENT_FUNDS case where the conditional debit matched zero rows —
leaves every account row exactly as it was, appends no ledger entry, and
zero ledger entries reference the rejected transaction; only the
transactions row and audit rows differ. -/
theorem C8_rejected_no_trace (input : TransferInput) (s s' : DBState)
    (txId : Nat) (r : String) (hW : WF s)
    (hNT : NoTraceRejected s) (hPC : PayloadConsistent s)
    (heq : transferFunds input s =
      (TransferOutput.ok (some (Payload.rejected txId r)), s')) :
    s'.accounts = s.accounts ∧ s'.ledger_entries = s.ledger_entries ∧
    entriesFor s'.ledger_entries txId = [] := by
  by_cases h1 : input.amount ≤ 0
  · unfold transferFunds at heq
    rw [if_pos h1] at heq
    exact absurd heq (by simp)
  by_cases h2 : input.fromAccountId = input.toAccountId
  · unfold transferFunds at heq
    rw [if_neg h1, if_pos h2] at heq
    exact absurd heq (by simp)
  by_cases h3 : input.idempotencyKey = ""
  · unfold transferFunds at heq
    rw [if_neg h1, if_neg h2, if_pos h3] at heq
    exact absurd heq (by simp)
  rw [transferFunds_eq_body input s (not_le.mp h1) h2 h3] at heq
  cases hf : findTransaction s input.initiatorUserId input.idempotencyKey with
  | some t =>
    rw [transferBody_replay input s t hf] at heq
    injection heq with hout hp2
    injection hout with hp1
    subst hp2
    have hmem : t ∈ s.transactions := List.mem_of_find?_eq_some hf
    have hpc := (hPC t hmem).1 txId r hp1
    refine ⟨rfl, rfl, ?_⟩
    rw [hpc.1]
    exact hNT t hmem hpc.2
  | none =>
    cases hr : rejectionReasonOf (findAccount s input.fromAccountId)
        (findAccount s input.toAccountId) with
    | some r0 =>
      simp only [transferBody_reject input s r0 hf hr] at heq
      injection heq with hout hstate
      injection hout with hopt
      injection hopt with hpay
      injection hpay with hid hreason
      subst hstate
      refine ⟨rfl, rfl, ?_⟩
      rw [← hid]
      exact entriesFor_nil_of_fresh
        (fun e he => Nat.ne_of_lt (hW.ledger_fresh e he))
    | none =>
      by_cases hd : s.accounts.countP
          (debitMatches input.fromAccountId input.amount) = 0
      · simp only [transferBody_insufficient input s hf hr hd] at heq
        injection heq with hout hstate
        injection hout with hopt
        injection hopt with hpay
        injection hpay with hid hreason
        subst hstate
        refine ⟨rfl, rfl, ?_⟩
        rw [← hid]
        exact entriesFor_nil_of_fresh
          (fun e he => Nat.ne_of_lt (hW.ledger_fresh e he))
      · by_cases hc : s.accounts.countP (creditMatches input.toAccountId) = 0
        · rw [transferBody_creditfail input s hf hr hd hc] at heq
          exact absurd heq (by simp)
        · simp only [transferBody_success input s hf hr hd hc] at heq
          exact absurd heq (by simp)

/-- C8 witness: the spec's insufficient-funds scenario (balances 500 and
2000, amount 1000) rejects with untouched balances and an empty ledger. -/
theorem C8_witness :
    (transferFunds ⟨100, 1, 2, 1000, "k2"⟩
      { accounts := [⟨1, AccountStatus.ACTIVE, 500⟩,
                     ⟨2, AccountStatus.ACTIVE, 2000⟩]
        transactions := [], ledger_entries := [], audit_logs := []
        nextTxId := 0 }).2.accounts =
      [⟨1, AccountStatus.ACTIVE, 500⟩, ⟨2, AccountStatus.ACTIVE, 2000⟩] ∧
    (transferFunds ⟨100, 1, 2, 1000, "k2"⟩
      { accounts := [⟨1, AccountStatus.ACTIVE, 500⟩,
                     ⟨2, AccountStatus.ACTIVE, 2000⟩]
        transactions := [], ledger_entries := [], audit_logs := []
        nextTxId := 0 }).2.ledger_entries = [] ∧
    entriesFor (transferFunds ⟨100, 1, 2, 1000, "k2"⟩
      { accounts := [⟨1, AccountStatus.ACTIVE, 500⟩,
                     ⟨2, AccountStatus.ACTIVE, 2000⟩]
        transactions := [], ledger_entries := [], audit_logs := []
        nextTxId := 0 }).2.ledger_entries 0 = [] :=
  C8_rejected_no_trace ⟨100, 1, 2, 1000, "k2"⟩
    { accounts := [⟨1, AccountStatus.ACTIVE, 500⟩,
                   ⟨2, AccountStatus.ACTIVE, 2000⟩]
      transactions := [], ledger_entries := [], audit_logs := []
      nextTxId := 0 }
    (transferFunds ⟨100, 1, 2, 1000, "k2"⟩
      { accounts := [⟨1, AccountStatus.ACTIVE, 500⟩,
                     ⟨2, AccountStatus.ACTIVE, 2000⟩]
        transactions := [], ledger_entries := [], audit_logs := []
        nextTxId := 0 }).2
    0 "INSUFFICIENT_FUNDS"
    ⟨by decide, by decide, by decide, by decide⟩
    (by simp [NoTraceRejected]) (by simp [PayloadConsistent]) (by decide)

/-- C4: when a call completes with a terminal (SUCCEEDED or REJECTED)
payload, a second call with the same (initiatorUserId, idempotencyKey)
returns the byte-identical payload and performs no side effect (the state is
returned unchanged), exactly one transactions row matches the key, and at
most two ledger rows reference the payload's transaction. -/
theorem C4_idempotency (input : TransferInput) (s s1 : DBState) (p : Payload)
    (hW : WF s) (hZS : ZeroSumSucceeded s) (hNT : NoTraceRejected s)
    (hPC : PayloadConsistent s)
    (heq : transferFunds input s = (TransferOutput.ok (some p), s1))
    (hterm : isTerminalPayload p = true) :
    transferFunds input s1 = (TransferOutput.ok (some p), s1) ∧
    s1.transactions.countP
      (txKeyMatches input.initiatorUserId input.idempotencyKey) = 1 ∧
    (entriesFor s1.ledger_entries (payloadTransactionId p)).length ≤ 2 := by
  by_cases h1 : input.amount ≤ 0
  · unfold transferFunds at heq
    rw [if_pos h1] at heq
    injection heq with hout hst
    injection hout with hopt
    injection hopt with hpay
    rw [← hpay] at hterm
    exact absurd hterm (by simp [isTerminalPayload])
  by_cases h2 : input.fromAccountId = input.toAccountId
  · unfold transferFunds at heq
    rw [if_neg h1, if_pos h2] at heq
    injection heq with hout hst
    injection hout with hopt
    injection hopt with hpay
    rw [← hpay] at hterm
    exact absurd hterm (by simp [isTerminalPayload])
  by_cases h3 : input.idempotencyKey = ""
  · unfold transferFunds at heq
    rw [if_neg h1, if_neg h2, if_pos h3] at heq
    injection heq with hout hst
    injection hout with hopt
    injection hopt with hpay
    rw [← hpay] at hterm
    exact absurd hterm (by simp [isTerminalPayload])
  have h1' := not_le.mp h1
  rw [transferFunds_eq_body input s h1' h2 h3] at heq
  cases hf : findTransaction s input.initiatorUserId input.idempotencyKey with
  | some t =>
    rw [transferBody_replay input s t hf] at heq
    injection heq with hout hstate
    injection hout with hopt
    subst hstate
    have hmem : t ∈ s.transactions := List.mem_of_find?_eq_some hf
    have hpred : txKeyMatches input.initiatorUserId input.idempotencyKey t =
        true := List.find?_some hf
    have htype : t.type = "TRANSFER" := by
      have hp := hpred
      simp only [txKeyMatches, decide_eq_true_eq] at hp
      exact hp.2.2
    refine ⟨?_, ?_, ?_⟩
    · rw [transferFunds_eq_body input s h1' h2 h3,
        transferBody_replay input s t hf, hopt]
    · refine Nat.le_antisymm (count_key_le_one s hW _ _ h3) ?_
      exact List.countP_pos_iff.mpr ⟨t, hmem, hpred⟩
    · cases p with
      | inputFault e m => exact absurd hterm (by simp [isTerminalPayload])
      | rejected tid r =>
        have hpc := (hPC t hmem).1 tid r hopt
        simp only [payloadTransactionId]
        rw [hpc.1, hNT t hmem hpc.2]
        simp
      | succeeded tid f g a =>
        have hpc := (hPC t hmem).2 tid f g a hopt
        have hz := hZS t hmem hpc.2 htype
        simp only [payloadTransactionId]
        rw [hpc.1, hz.2]
        simp
  | none =>
    have hfresh : ∀ t' ∈ s.transactions, t'.transaction_id ≠ s.nextTxId :=
      fun t' ht' => Nat.ne_of_lt (hW.tx_fresh t' ht')
    have hledfresh : ∀ e ∈ s.ledger_entries, e.transaction_id ≠ s.nextTxId :=
      fun e he => Nat.ne_of_lt (hW.ledger_fresh e he)
    cases hr : rejectionReasonOf (findAccount s input.fromAccountId)
        (findAccount s input.toAccountId) with
    | some r0 =>
      simp only [transferBody_reject input s r0 hf hr] at heq
      injection heq with hout hstate
      injection hout with hopt
      injection hopt with hpay
      subst hpay
      have htrans : s1.transactions = s.transactions ++
          [{ pendingTransferRow input s.nextTxId with
             status := TxStatus.REJECTED
             failure_reason := some r0
             response_payload := some (Payload.rejected s.nextTxId r0) }] := by
        rw [← hstate]
        simp only [List.map_append, map_rejectApply_fresh _ _ hfresh,
          List.map_cons, List.map_nil, rejectApply_pending]
      have hled : s1.ledger_entries = s.ledger_entries := by
        rw [← hstate]
      have hrowpred : txKeyMatches input.initiatorUserId input.idempotencyKey
          { pendingTransferRow input s.nextTxId with
            status := TxStatus.REJECTED
            failure_reason := some r0
            response_payload := some (Payload.rejected s.nextTxId r0) } =
          true := by
        simp [txKeyMatches, pendingTransferRow]
      have hfind1 : findTransaction s1 input.initiatorUserId
          input.idempotencyKey = some
          { pendingTransferRow input s.nextTxId with
            status := TxStatus.REJECTED
            failure_reason := some r0
            response_payload := some (Payload.rejected s.nextTxId r0) } := by
        unfold findTransaction
        rw [htrans]
        exact find?_txKey_append_single _ _ _ hf hrowpred
      refine ⟨?_, ?_, ?_⟩
      · rw [transferFunds_eq_body input s1 h1' h2 h3,
          transferBody_replay input s1 _ hfind1]
      · rw [htrans]
        exact countP_txKey_append_single _ _ _ hf hrowpred
      · simp only [payloadTransactionId]
        rw [hled, entriesFor_nil_of_fresh hledfresh]
        simp
    | none =>
      by_cases hd : s.accounts.countP
          (debitMatches input.fromAccountId input.amount) = 0
      · simp only [transferBody_insufficient input s hf hr hd] at heq
        injection heq with hout hstate
        injection hout with hopt
        injection hopt with hpay
        subst hpay
        have htrans : s1.transactions = s.transactions ++
            [{ pendingTransferRow input s.nextTxId with
               status := TxStatus.REJECTED
               failure_reason := some "INSUFFICIENT_FUNDS"
               response_payload :=
                 some (Payload.rejected s.nextTxId "INSUFFICIENT_FUNDS") }] := by
          rw [← hstate]
          simp only [List.map_append, map_rejectApply_fresh _ _ hfresh,
            List.map_cons, List.map_nil, rejectApply_pending]
        have hled : s1.ledger_entries = s.ledger_entries := by
          rw [← hstate]
        have hrowpred : txKeyMatches input.initiatorUserId
            input.idempotencyKey
            { pendingTransferRow input s.nextTxId with
              status := TxStatus.REJECTED
              failure_reason := some "INSUFFICIENT_FUNDS"
              response_payload :=
                some (Payload.rejected s.nextTxId "INSUFFICIENT_FUNDS") } =
            true := by
          simp [txKeyMatches, pendingTransferRow]
        have hfind1 : findTransaction s1 input.initiatorUserId
            input.idempotencyKey = some
            { pendingTransferRow input s.nextTxId with
              status := TxStatus.REJECTED
              failure_reason := some "INSUFFICIENT_FUNDS"
              response_payload :=
                some (Payload.rejected s.nextTxId "INSUFFICIENT_FUNDS") } := by
          unfold findTransaction
          rw [htrans]
          exact find?_txKey_append_single _ _ _ hf hrowpred
        refine ⟨?_, ?_, ?_⟩
        · rw [transferFunds_eq_body input s1 h1' h2 h3,
            transferBody_replay input s1 _ hfind1]
        · rw [htrans]
          exact countP_txKey_append_single _ _ _ hf hrowpred
        · simp only [payloadTransactionId]
          rw [hled, entriesFor_nil_of_fresh hledfresh]
          simp
      · by_cases hc : s.accounts.countP
            (creditMatches input.toAccountId) = 0
        · rw [transferBody_creditfail input s hf hr hd hc] at heq
          exact absurd heq (by simp)
        · simp only [transferBody_success input s hf hr hd hc] at heq
          injection heq with hout hstate
          injection hout with hopt
          injection hopt with hpay
          subst hpay
          have htrans : s1.transactions = s.transactions ++
              [{ pendingTransferRow input s.nextTxId with
                 status := TxStatus.SUCCEEDED
                 response_payload := some (Payload.succeeded s.nextTxId
                   input.fromAccountId input.toAccountId input.amount) }] := by
            rw [← hstate]
            simp only [List.map_append, map_succeedApply_fresh _ hfresh,
              List.map_cons, List.map_nil, succeedApply_pending]
          have hled : s1.ledger_entries = s.ledger_entries ++
              [{ account_id := input.fromAccountId
                 transaction_id := s.nextTxId, amount := -input.amount },
               { account_id := input.toAccountId
                 transaction_id := s.nextTxId, amount := input.amount }] := by
            rw [← hstate]
          have hrowpred : txKeyMatches input.initiatorUserId
              input.idempotencyKey
              { pendingTransferRow input s.nextTxId with
                status := TxStatus.SUCCEEDED
                response_payload := some (Payload.succeeded s.nextTxId
                  input.fromAccountId input.toAccountId input.amount) } =
              true := by
            simp [txKeyMatches, pendingTransferRow]
          have hfind1 : findTransaction s1 input.initiatorUserId
              input.idempotencyKey = some
              { pendingTransferRow input s.nextTxId with
                status := TxStatus.SUCCEEDED
                response_payload := some (Payload.succeeded s.nextTxId
                  input.fromAccountId input.toAccountId input.amount) } := by
            unfold findTransaction
            rw [htrans]
            exact find?_txKey_append_single _ _ _ hf hrowpred
          refine ⟨?_, ?_, ?_⟩
          · rw [transferFunds_eq_body input s1 h1' h2 h3,
              transferBody_replay input s1 _ hfind1]
          · rw [htrans]
            exact countP_txKey_append_single _ _ _ hf hrowpred
          · simp only [payloadTransactionId]
            rw [hled, entriesFor_append,
              entriesFor_nil_of_fresh hledfresh]
            simp [entriesFor]

/-- C4 witness: running the spec's success scenario and replaying it — the
hypotheses are discharged at the concrete first-call state and result. -/
theorem C4_witness :
    transferFunds ⟨100, 1, 2, 3000, "k1"⟩
      (transferFunds ⟨100, 1, 2, 3000, "k1"⟩
        { accounts := [⟨1, AccountStatus.ACTIVE, 10000⟩,
                       ⟨2, AccountStatus.ACTIVE, 5000⟩]
          transactions := [], ledger_entries := [], audit_logs := []
          nextTxId := 0 }).2 =
      (TransferOutput.ok (some (Payload.succeeded 0 1 2 3000)),
        (transferFunds ⟨100, 1, 2, 3000, "k1"⟩
          { accounts := [⟨1, AccountStatus.ACTIVE, 10000⟩,
                         ⟨2, AccountStatus.ACTIVE, 5000⟩]
            transactions := [], ledger_entries := [], audit_logs := []
            nextTxId := 0 }).2) ∧
    (transferFunds ⟨100, 1, 2, 3000, "k1"⟩
      { accounts := [⟨1, AccountStatus.ACTIVE, 10000⟩,
                     ⟨2, AccountStatus.ACTIVE, 5000⟩]
        transactions := [], ledger_entries := [], audit_logs := []
        nextTxId := 0 }).2.transactions.countP (txKeyMatches 100 "k1") = 1 ∧
    (entriesFor (transferFunds ⟨100, 1, 2, 3000, "k1"⟩
      { accounts := [⟨1, AccountStatus.ACTIVE, 10000⟩,
                     ⟨2, AccountStatus.ACTIVE, 5000⟩]
        transactions := [], ledger_entries := [], audit_logs := []
        nextTxId := 0 }).2.ledger_entries
      (payloadTransactionId (Payload.succeeded 0 1 2 3000))).length ≤ 2 :=
  C4_idempotency ⟨100, 1, 2, 3000, "k1"⟩
    { accounts := [⟨1, AccountStatus.ACTIVE, 10000⟩,
                   ⟨2, AccountStatus.ACTIVE, 5000⟩]
      transactions := [], ledger_entries := [], audit_logs := []
      nextTxId := 0 }
    (transferFunds ⟨100, 1, 2, 3000, "k1"⟩
      { accounts := [⟨1, AccountStatus.ACTIVE, 10000⟩,
                     ⟨2, AccountStatus.ACTIVE, 5000⟩]
        transactions := [], ledger_entries := [], audit_logs := []
        nextTxId := 0 }).2
    (Payload.succeeded 0 1 2 3000)
    ⟨by decide, by decide, by decide, by decide⟩
    (by simp [ZeroSumSucceeded]) (by simp [NoTraceRejected])
    (by simp [PayloadConsistent]) (by decide) (by decide)

/-- C1: from any state in which every account's balance equals the sum of
its ledger entries and every SUCCEEDED transfer has its two opposite
entries, every state reachable through committed `transferFunds` calls keeps
both invariants: the balance–ledger equality holds, every SUCCEEDED transfer
transaction carries exactly two ledger entries — `-amount` on the
from-account and `+amount` on the to-account, of equal magnitude equal to
the transaction's amount — and those entries sum to zero. -/
theorem C1_ledger_invariants (s s' : DBState)
    (hW : WF s) (hB : BalanceLedgerEq s) (hZ : ZeroSumSucceeded s)
    (hr : Reachable s s') :
    BalanceLedgerEq s' ∧ ZeroSumSucceeded s' ∧
    ∀ t ∈ s'.transactions, t.status = TxStatus.SUCCEEDED →
      t.type = "TRANSFER" →
      (entriesFor s'.ledger_entries t.transaction_id).length = 2 ∧
      ((entriesFor s'.ledger_entries t.transaction_id).map
        (fun e => e.amount)).sum = 0 := by
  have main : Invariants s' := by
    induction hr with
    | refl => exact ⟨hW, hB, hZ⟩
    | step sb input hrab ih => exact step_preserves input sb ih
  refine ⟨main.2.1, main.2.2, ?_⟩
  intro t ht hst hty
  have hz := main.2.2 t ht hst hty
  rw [hz.2]
  exact ⟨rfl, by simp⟩

/-- C1 witness: one committed success step out of a concrete state whose
balances match its ledger. -/
theorem C1_witness :
    BalanceLedgerEq (transferFunds ⟨100, 1, 2, 3000, "k1"⟩
      { accounts := [⟨1, AccountStatus.ACTIVE, 10000⟩,
                     ⟨2, AccountStatus.ACTIVE, 0⟩]
        transactions := [], ledger_entries := [⟨1, 0, 10000⟩]
        audit_logs := [], nextTxId := 1 }).2 ∧
    ZeroSumSucceeded (transferFunds ⟨100, 1, 2, 3000, "k1"⟩
      { accounts := [⟨1, AccountStatus.ACTIVE, 10000⟩,
                     ⟨2, AccountStatus.ACTIVE, 0⟩]
        transactions := [], ledger_entries := [⟨1, 0, 10000⟩]
        audit_logs := [], nextTxId := 1 }).2 ∧
    ∀ t ∈ (transferFunds ⟨100, 1, 2, 3000, "k1"⟩
      { accounts := [⟨1, AccountStatus.ACTIVE, 10000⟩,
                     ⟨2, AccountStatus.ACTIVE, 0⟩]
        transactions := [], ledger_entries := [⟨1, 0, 10000⟩]
        audit_logs := [], nextTxId := 1 }).2.transactions,
      t.status = TxStatus.SUCCEEDED → t.type = "TRANSFER" →
      (entriesFor (transferFunds ⟨100, 1, 2, 3000, "k1"⟩
        { accounts := [⟨1, AccountStatus.ACTIVE, 10000⟩,
                       ⟨2, AccountStatus.ACTIVE, 0⟩]
          transactions := [], ledger_entries := [⟨1, 0, 10000⟩]
          audit_logs := [], nextTxId := 1 }).2.ledger_entries
        t.transaction_id).length = 2 ∧
      ((entriesFor (transferFunds ⟨100, 1, 2, 3000, "k1"⟩
        { accounts := [⟨1, AccountStatus.ACTIVE, 10000⟩,
                       ⟨2, AccountStatus.ACTIVE, 0⟩]
          transactions := [], ledger_entries := [⟨1, 0, 10000⟩]
          audit_logs := [], nextTxId := 1 }).2.ledger_entries
        t.transaction_id).map (fun e => e.amount)).sum = 0 :=
  C1_ledger_invariants
    { accounts := [⟨1, AccountStatus.ACTIVE, 10000⟩,
                   ⟨2, AccountStatus.ACTIVE, 0⟩]
      transactions := [], ledger_entries := [⟨1, 0, 10000⟩]
      audit_logs := [], nextTxId := 1 }
    (transferFunds ⟨100, 1, 2, 3000, "k1"⟩
      { accounts := [⟨1, AccountStatus.ACTIVE, 10000⟩,
                     ⟨2, AccountStatus.ACTIVE, 0⟩]
        transactions := [], ledger_entries := [⟨1, 0, 10000⟩]
        audit_logs := [], nextTxId := 1 }).2
    ⟨by decide, by decide, by decide, by decide⟩
    (by unfold BalanceLedgerEq; decide) (by simp [ZeroSumSucceeded])
    (Reachable.step _ _ ⟨100, 1, 2, 3000, "k1"⟩ (Reachable.refl _))

end MockBanking
